import Mathlib

/-
Verification development for the `toonify` error-compressing CLI
(`src/main.rs`).  The classification-and-extraction pipeline is embedded
shallowly: Rust strings become Lean `String` (with positions measured in
characters, which coincide with Rust's byte positions at every character
boundary the code ever slices at; byte lengths are computed explicitly via
UTF-8 sizes), and the `regex` crate patterns are transcribed into a small
regular-expression AST interpreted with the crate's leftmost-first,
greedy-preference semantics.  Case-insensitive matching `(?i)` is modelled
as ASCII case folding, and the character classes `\w`, `\d`, `\s` as their
ASCII readings, which agree with the Rust Unicode classes on all ASCII
input.
-/

namespace Toonify

-- ───────────────────────────────────────────────────────────────────────────
-- UTF-8 byte lengths (Rust `str::len` counts bytes)
-- ───────────────────────────────────────────────────────────────────────────

/-- Byte length of a character list under UTF-8, mirroring Rust `str::len`. -/
def utf8LenL (cs : List Char) : Nat := (cs.map Char.utf8Size).sum

/-- Byte length of a string under UTF-8, mirroring Rust `str::len`. -/
def utf8Len (s : String) : Nat := utf8LenL s.data

-- ───────────────────────────────────────────────────────────────────────────
-- Regular-expression AST and matcher (embedding of the `regex` crate usage)
-- ───────────────────────────────────────────────────────────────────────────

/-- Regular-expression AST covering exactly the constructs used by the
patterns in `Patterns::compile`.  Quantified subexpressions in those
patterns are always single character classes, so the star is restricted to
a class (`starC`), which keeps the backtracking matcher structurally
recursive. -/
inductive RE where
  | eps : RE
  | cls : (Char → Bool) → RE
  | lit : List Char → RE
  | seq : RE → RE → RE
  | alt : RE → RE → RE
  | starC : (Char → Bool) → RE
  | opt : RE → RE
  | grp : Nat → RE → RE
  | bol : RE
  | eot : RE
  | wb : RE

/-- Character at position `i`. -/
def charAt (s : List Char) (i : Nat) : Option Char := (s.drop i).head?

/-- Does `ps` occur at position `i` of `s`? -/
def prefixAt (ps s : List Char) (i : Nat) : Bool := ps.isPrefixOf (s.drop i)

/-- ASCII word character, the `\w` class restricted to ASCII. -/
def wordChar (c : Char) : Bool := c.isAlphanum || c == '_'

def wordAt (s : List Char) (i : Nat) : Bool :=
  match charAt s i with
  | some c => wordChar c
  | none => false

/-- Word boundary `\b` at position `i`. -/
def atWB (s : List Char) (i : Nat) : Bool :=
  match i with
  | 0 => wordAt s 0
  | Nat.succ j => wordAt s j != wordAt s (j + 1)

/-- Multi-line `^` (start of text or just after a newline). -/
def atBOL (s : List Char) (i : Nat) : Bool :=
  match i with
  | 0 => true
  | Nat.succ j => charAt s j == some '\n'

/-- Length of the maximal run of characters satisfying `p`. -/
def runLen (p : Char → Bool) : List Char → Nat
  | [] => 0
  | c :: cs => if p c then runLen p cs + 1 else 0

/-- Captured spans: group number with start and end position. -/
abbrev Caps := List (Nat × Nat × Nat)

/-- Greedy choice of a star's stopping point: try the longest extension
first, backtracking down to the shortest, as the `regex` crate's greedy
quantifiers do. -/
def tryDown (k : Nat → Option (Nat × Caps)) (i : Nat) : Nat → Option (Nat × Caps)
  | 0 => k i
  | Nat.succ d => (k (i + d + 1)).orElse (fun _ => tryDown k i d)

/-- Backtracking matcher in continuation-passing style.  `mrun r s i cp k`
tries to match `r` at position `i` of `s`, extending captures `cp`, and
calls `k` on every candidate end position in the `regex` crate's
preference order (alternation left first, quantifiers greedy); the first
success wins. -/
def mrun : RE → List Char → Nat → Caps → (Nat → Caps → Option (Nat × Caps)) → Option (Nat × Caps)
  | RE.eps, _, i, cp, k => k i cp
  | RE.cls p, s, i, cp, k =>
      match charAt s i with
      | some c => if p c then k (i + 1) cp else none
      | none => none
  | RE.lit l, s, i, cp, k => if prefixAt l s i then k (i + l.length) cp else none
  | RE.seq a b, s, i, cp, k => mrun a s i cp (fun j cp2 => mrun b s j cp2 k)
  | RE.alt a b, s, i, cp, k => (mrun a s i cp k).orElse (fun _ => mrun b s i cp k)
  | RE.starC p, s, i, cp, k => tryDown (fun j => k j cp) i (runLen p (s.drop i))
  | RE.opt a, s, i, cp, k => (mrun a s i cp k).orElse (fun _ => k i cp)
  | RE.grp n a, s, i, cp, k => mrun a s i cp (fun j cp2 => k j ((n, i, j) :: cp2))
  | RE.bol, s, i, cp, k => if atBOL s i then k i cp else none
  | RE.eot, s, i, cp, k => if i = s.length then k i cp else none
  | RE.wb, s, i, cp, k => if atWB s i then k i cp else none

/-- Preferred match of `r` starting exactly at `i`: end position and captures. -/
def findAt (r : RE) (s : List Char) (i : Nat) : Option (Nat × Caps) :=
  mrun r s i [] (fun j cp => some (j, cp))

/-- Scan start positions `i, i+1, ...` (`fuel` bounds the scan). -/
def searchAux (r : RE) (s : List Char) : Nat → Nat → Option (Nat × Nat × Caps)
  | _, 0 => none
  | i, Nat.succ fuel =>
      match findAt r s i with
      | some (j, cp) => some (i, j, cp)
      | none => searchAux r s (i + 1) fuel

/-- Leftmost-first match of `r` in `s`: start, end, captures.  This is the
embedding of `Regex::find` / `Regex::captures`. -/
def reFind (r : RE) (s : List Char) : Option (Nat × Nat × Caps) :=
  searchAux r s 0 (s.length + 1)

/-- Embedding of `Regex::is_match`. -/
def isMatch (r : RE) (s : String) : Bool := (reFind r s.data).isSome

/-- Successive non-overlapping leftmost-first matches (`Regex::find_iter`). -/
def findIterAux (r : RE) (s : List Char) : Nat → Nat → List (Nat × Nat)
  | _, 0 => []
  | pos, Nat.succ fuel =>
      match searchAux r s pos (s.length + 1 - pos) with
      | none => []
      | some (st, en, _) =>
          (st, en) :: findIterAux r s (if st < en then en else en + 1) fuel

/-- Embedding of `Regex::find_iter`: the list of match spans. -/
def findIter (r : RE) (s : List Char) : List (Nat × Nat) :=
  findIterAux r s 0 (s.length + 1)

/-- Substring of `s` between positions `st` and `en` (Rust `&s[st..en]`). -/
def sliceS (s : String) (st en : Nat) : String :=
  String.mk ((s.data.drop st).take (en - st))

-- ───────────────────────────────────────────────────────────────────────────
-- Pattern-building helpers
-- ───────────────────────────────────────────────────────────────────────────

/-- Case-sensitive literal. -/
def litS (s : String) : RE := RE.lit s.data

/-- ASCII case folding for `(?i)`. -/
def ichEq (a : Char) : Char → Bool := fun c => c.toLower == a.toLower

/-- Case-insensitive literal, for patterns under `(?i)`. -/
def iLit (s : String) : RE :=
  s.data.foldr (fun c r => RE.seq (RE.cls (ichEq c)) r) RE.eps

/-- Alternation of a list, left-to-right preference. -/
def alts : List RE → RE
  | [] => RE.eps
  | [r] => r
  | r :: rs => RE.alt r (alts rs)

/-- One-or-more of a character class (`X+` with `X` a class). -/
def plusC (p : Char → Bool) : RE := RE.seq (RE.cls p) (RE.starC p)

/-- The `.` class: any character except a newline. -/
def dotC : Char → Bool := fun c => c != '\n'

def dotStar : RE := RE.starC dotC

def dotPlus : RE := plusC dotC

def digC : Char → Bool := Char.isDigit

/-- `\d+` -/
def dPlus : RE := plusC digC

def wsC : Char → Bool := Char.isWhitespace

/-- `\s+` -/
def wsPlus : RE := plusC wsC

/-- `\s*` -/
def wsStar : RE := RE.starC wsC

def nwsC : Char → Bool := fun c => !c.isWhitespace

/-- `\S+` -/
def nwsPlus : RE := plusC nwsC

/-- `\w+` (ASCII reading) -/
def wPlus : RE := plusC wordChar

def lowC : Char → Bool := fun c => 'a' ≤ c && c ≤ 'z'

/-- `[a-z]+` -/
def lowPlus : RE := plusC lowC

def upC : Char → Bool := fun c => 'A' ≤ c && c ≤ 'Z'

/-- `[A-Z]+` -/
def upPlus : RE := plusC upC

def upUnderC : Char → Bool := fun c => ('A' ≤ c && c ≤ 'Z') || c == '_'

/-- `[45]` -/
def st45 : RE := RE.cls (fun c => c == '4' || c == '5')

/-- `\d{2}` -/
def dig2 : RE := RE.seq (RE.cls digC) (RE.cls digC)

/-- `[:\s]` -/
def colonWsC : Char → Bool := fun c => c == ':' || c.isWhitespace

/-- `[A-Za-z0-9_.-]` (the file-name class of `file_location`). -/
def fileC : Char → Bool := fun c => c.isAlphanum || c == '_' || c == '.' || c == '-'

/-- `(mdx|tsx|jsx|ts|js|vue|svelte)`, the `SOURCE_EXTENSIONS` alternation in
its source order. -/
def extAlt : RE :=
  alts [litS "mdx", litS "tsx", litS "jsx", litS "ts", litS "js", litS "vue", litS "svelte"]

/-- The JS-error detection shape
`(?m)^(?:\S+:\d+\s+)?NAME:|Uncaught NAME` shared by the six runtime
error patterns. -/
def jsErrRe (nm : String) : RE :=
  RE.alt
    (RE.seq RE.bol
      (RE.seq (RE.opt (RE.seq nwsPlus (RE.seq (litS ":") (RE.seq dPlus wsPlus))))
        (litS (nm ++ ":"))))
    (litS ("Uncaught " ++ nm))

-- ───────────────────────────────────────────────────────────────────────────
-- Patterns (transcription of `Patterns::compile`)
-- ───────────────────────────────────────────────────────────────────────────

/-- The compiled pattern registry, one field per field of the Rust
`Patterns` struct.  Each field's definition transcribes the regex string
passed to `re(...)` in `Patterns::compile`, quoted in the comment above
it. -/
structure Patterns where
  dom_nesting : RE
  hydration : RE
  react_minified : RE
  invalid_hook : RE
  react_key : RE
  type_error : RE
  ref_error : RE
  syntax_error : RE
  range_error : RE
  uri_error : RE
  eval_error : RE
  cors_error : RE
  network_error : RE
  http_error : RE
  websocket_error : RE
  csp_error : RE
  security_error : RE
  mixed_content : RE
  storybook : RE
  nextjs : RE
  module_not_found : RE
  playwright : RE
  system_error : RE
  unhandled_rejection : RE
  media_error : RE
  indexeddb_error : RE
  service_worker : RE
  deprecation : RE
  stack_trace : RE
  file_location : RE
  dom_issue : RE
  system_code : RE
  storybook_code : RE
  nextjs_code : RE
  http_status : RE
  user_frame : RE
  framework_noise : RE
  frame_at_name_loc : RE
  frame_at_symbol_loc : RE
  frame_name_at_loc : RE
  location_file_line : RE

def PATTERNS : Patterns where
  -- (?i)validateDOMNesting
  dom_nesting := iLit "validateDOMNesting"
  -- (?i)hydrat(ion|e|ing).*(?:failed|mismatch|error)
  hydration :=
    RE.seq (iLit "hydrat")
      (RE.seq (alts [iLit "ion", iLit "e", iLit "ing"])
        (RE.seq dotStar (alts [iLit "failed", iLit "mismatch", iLit "error"])))
  -- Minified React error #\d+|react\.production\.min\.js
  react_minified :=
    RE.alt (RE.seq (litS "Minified React error #") dPlus) (litS "react.production.min.js")
  -- (?i)Invalid hook call|Rules of Hooks|rendered more hooks
  invalid_hook := alts [iLit "Invalid hook call", iLit "Rules of Hooks", iLit "rendered more hooks"]
  -- (?i)Encountered two children with the same key|Keys should be unique|Non-unique keys may cause
  react_key :=
    alts [iLit "Encountered two children with the same key", iLit "Keys should be unique",
      iLit "Non-unique keys may cause"]
  -- (?m)^(?:\S+:\d+\s+)?TypeError:|Uncaught TypeError
  type_error := jsErrRe "TypeError"
  -- (?m)^(?:\S+:\d+\s+)?ReferenceError:|Uncaught ReferenceError
  ref_error := jsErrRe "ReferenceError"
  -- (?m)^(?:\S+:\d+\s+)?SyntaxError:|Uncaught SyntaxError
  syntax_error := jsErrRe "SyntaxError"
  -- (?m)^(?:\S+:\d+\s+)?RangeError:|Uncaught RangeError
  range_error := jsErrRe "RangeError"
  -- (?m)^(?:\S+:\d+\s+)?URIError:|Uncaught URIError
  uri_error := jsErrRe "URIError"
  -- (?m)^(?:\S+:\d+\s+)?EvalError:|Uncaught EvalError
  eval_error := jsErrRe "EvalError"
  -- (?i)CORS|Access-Control-Allow-Origin|blocked by CORS|cross-origin
  cors_error :=
    alts [iLit "CORS", iLit "Access-Control-Allow-Origin", iLit "blocked by CORS", iLit "cross-origin"]
  -- (?i)Failed to fetch|NetworkError|net::ERR_|NS_ERROR_|fetch.*failed
  network_error :=
    alts [iLit "Failed to fetch", iLit "NetworkError", iLit "net::ERR_", iLit "NS_ERROR_",
      RE.seq (iLit "fetch") (RE.seq dotStar (iLit "failed"))]
  -- (?i)\b(GET|POST|PUT|DELETE|PATCH)\s+\S+\s+[45]\d{2}\b|status[:\s]+[45]\d{2}\b
  --   |\b[45]\d{2}\s+(Not Found|Internal Server|Bad Request|Unauthorized|Forbidden)
  http_error :=
    alts
      [ RE.seq RE.wb
          (RE.seq (alts [iLit "GET", iLit "POST", iLit "PUT", iLit "DELETE", iLit "PATCH"])
            (RE.seq wsPlus (RE.seq nwsPlus (RE.seq wsPlus (RE.seq st45 (RE.seq dig2 RE.wb)))))),
        RE.seq (iLit "status")
          (RE.seq (plusC colonWsC) (RE.seq st45 (RE.seq dig2 RE.wb))),
        RE.seq RE.wb
          (RE.seq st45
            (RE.seq dig2
              (RE.seq wsPlus
                (alts [iLit "Not Found", iLit "Internal Server", iLit "Bad Request",
                  iLit "Unauthorized", iLit "Forbidden"]))))]
  -- (?i)WebSocket.*(?:error|failed|closed)|ws://.*error|wss://.*error
  websocket_error :=
    alts
      [ RE.seq (iLit "WebSocket") (RE.seq dotStar (alts [iLit "error", iLit "failed", iLit "closed"])),
        RE.seq (iLit "ws://") (RE.seq dotStar (iLit "error")),
        RE.seq (iLit "wss://") (RE.seq dotStar (iLit "error"))]
  -- (?i)Content-Security-Policy|CSP|blocked.*policy|violat.*directive
  csp_error :=
    alts [iLit "Content-Security-Policy", iLit "CSP",
      RE.seq (iLit "blocked") (RE.seq dotStar (iLit "policy")),
      RE.seq (iLit "violat") (RE.seq dotStar (iLit "directive"))]
  -- (?i)SecurityError|security.*violation|insecure|blocked.*security
  security_error :=
    alts [iLit "SecurityError",
      RE.seq (iLit "security") (RE.seq dotStar (iLit "violation")),
      iLit "insecure",
      RE.seq (iLit "blocked") (RE.seq dotStar (iLit "security"))]
  -- (?i)Mixed Content|blocked.*insecure|http://.*https://
  mixed_content :=
    alts [iLit "Mixed Content",
      RE.seq (iLit "blocked") (RE.seq dotStar (iLit "insecure")),
      RE.seq (iLit "http://") (RE.seq dotStar (iLit "https://"))]
  -- SB_
  storybook := litS "SB_"
  -- (?i)NEXT_|getServerSideProps|getStaticProps|NextJS|next/
  nextjs :=
    alts [iLit "NEXT_", iLit "getServerSideProps", iLit "getStaticProps", iLit "NextJS", iLit "next/"]
  -- (?i)Module not found|Cannot find module|Cannot resolve|ModuleNotFoundError
  module_not_found :=
    alts [iLit "Module not found", iLit "Cannot find module", iLit "Cannot resolve",
      iLit "ModuleNotFoundError"]
  -- (?i)locator\.(click|fill|waitFor|check|press|type|hover)|page\.(goto|waitFor|click)
  --   |expect\(.*\)\.(toBeVisible|toHaveText|toBeEnabled|toBeChecked|toContainText)
  --   |TimeoutError.*locator|waiting for locator|strict mode violation|playwright|@playwright/test
  playwright :=
    alts
      [ RE.seq (iLit "locator.")
          (alts [iLit "click", iLit "fill", iLit "waitFor", iLit "check", iLit "press",
            iLit "type", iLit "hover"]),
        RE.seq (iLit "page.") (alts [iLit "goto", iLit "waitFor", iLit "click"]),
        RE.seq (iLit "expect(")
          (RE.seq dotStar
            (RE.seq (iLit ").")
              (alts [iLit "toBeVisible", iLit "toHaveText", iLit "toBeEnabled",
                iLit "toBeChecked", iLit "toContainText"]))),
        RE.seq (iLit "TimeoutError") (RE.seq dotStar (iLit "locator")),
        iLit "waiting for locator",
        iLit "strict mode violation",
        iLit "playwright",
        iLit "@playwright/test"]
  -- ENOENT|EACCES|ECONNREFUSED|ETIMEDOUT|EADDRINUSE|EPERM
  system_error :=
    alts [litS "ENOENT", litS "EACCES", litS "ECONNREFUSED", litS "ETIMEDOUT",
      litS "EADDRINUSE", litS "EPERM"]
  -- (?i)Unhandled.*rejection|UnhandledPromiseRejection|promise.*reject
  unhandled_rejection :=
    alts [RE.seq (iLit "Unhandled") (RE.seq dotStar (iLit "rejection")),
      iLit "UnhandledPromiseRejection",
      RE.seq (iLit "promise") (RE.seq dotStar (iLit "reject"))]
  -- (?i)MediaError|NotSupportedError.*media|play\(\).*failed|autoplay.*blocked
  media_error :=
    alts [iLit "MediaError",
      RE.seq (iLit "NotSupportedError") (RE.seq dotStar (iLit "media")),
      RE.seq (iLit "play()") (RE.seq dotStar (iLit "failed")),
      RE.seq (iLit "autoplay") (RE.seq dotStar (iLit "blocked"))]
  -- (?i)IndexedDB|IDBDatabase|QuotaExceededError|VersionError
  indexeddb_error :=
    alts [iLit "IndexedDB", iLit "IDBDatabase", iLit "QuotaExceededError", iLit "VersionError"]
  -- (?i)ServiceWorker|service.*worker.*(?:error|failed)|SW.*(?:error|failed)
  service_worker :=
    alts [iLit "ServiceWorker",
      RE.seq (iLit "service")
        (RE.seq dotStar (RE.seq (iLit "worker") (RE.seq dotStar (alts [iLit "error", iLit "failed"])))),
      RE.seq (iLit "SW") (RE.seq dotStar (alts [iLit "error", iLit "failed"]))]
  -- (?i)deprecated|deprecation|will be removed|no longer supported
  deprecation :=
    alts [iLit "deprecated", iLit "deprecation", iLit "will be removed", iLit "no longer supported"]
  -- at .* \(.*:\d+:\d+\)|Error:.*\n.*at\s
  stack_trace :=
    RE.alt
      (RE.seq (litS "at ")
        (RE.seq dotStar
          (RE.seq (litS " (")
            (RE.seq dotStar
              (RE.seq (litS ":") (RE.seq dPlus (RE.seq (litS ":") (RE.seq dPlus (litS ")")))))))))
      (RE.seq (litS "Error:")
        (RE.seq dotStar (RE.seq (litS "\n") (RE.seq dotStar (RE.seq (litS "at") (RE.cls wsC))))))
  -- [A-Za-z0-9_.-]+\.(mdx|tsx|jsx|ts|js|vue|svelte):\d+
  file_location :=
    RE.seq (plusC fileC) (RE.seq (litS ".") (RE.seq extAlt (RE.seq (litS ":") dPlus)))
  -- <[a-z]+> cannot (?:appear as a |be a )?descendant of <[a-z]+>
  dom_issue :=
    RE.seq (litS "<")
      (RE.seq lowPlus
        (RE.seq (litS "> cannot ")
          (RE.seq (RE.opt (RE.alt (litS "appear as a ") (litS "be a ")))
            (RE.seq (litS "descendant of <") (RE.seq lowPlus (litS ">"))))))
  -- E[A-Z]+:[^\n]*
  system_code := RE.seq (litS "E") (RE.seq upPlus (RE.seq (litS ":") (RE.starC dotC)))
  -- SB_[A-Z_]+[^\n]*
  storybook_code := RE.seq (litS "SB_") (RE.seq (plusC upUnderC) (RE.starC dotC))
  -- NEXT_[A-Z_]+|(?:getServerSideProps|getStaticProps)[^\n]*error
  nextjs_code :=
    RE.alt (RE.seq (litS "NEXT_") (plusC upUnderC))
      (RE.seq (RE.alt (litS "getServerSideProps") (litS "getStaticProps"))
        (RE.seq (RE.starC dotC) (litS "error")))
  -- \b[45]\d{2}\b
  http_status := RE.seq RE.wb (RE.seq st45 (RE.seq dig2 RE.wb))
  -- (@|at ).+\.(mdx|tsx|jsx|ts|js|vue|svelte):\d+
  user_frame :=
    RE.seq (RE.alt (litS "@") (litS "at "))
      (RE.seq dotPlus (RE.seq (litS ".") (RE.seq extAlt (RE.seq (litS ":") dPlus))))
  -- chunk-|node_modules|storybook_internal|webpack|vite|/internal|react-dom
  framework_noise :=
    alts [litS "chunk-", litS "node_modules", litS "storybook_internal", litS "webpack",
      litS "vite", litS "/internal", litS "react-dom"]
  -- at\s+(\w+)\s*\(([^)]+)\)
  frame_at_name_loc :=
    RE.seq (litS "at")
      (RE.seq wsPlus
        (RE.seq (RE.grp 1 wPlus)
          (RE.seq wsStar
            (RE.seq (litS "(") (RE.seq (RE.grp 2 (plusC (fun c => c != ')'))) (litS ")"))))))
  -- @\s*(\w+)\s*\(([^)]+)\)
  frame_at_symbol_loc :=
    RE.seq (litS "@")
      (RE.seq wsStar
        (RE.seq (RE.grp 1 wPlus)
          (RE.seq wsStar
            (RE.seq (litS "(") (RE.seq (RE.grp 2 (plusC (fun c => c != ')'))) (litS ")"))))))
  -- (\w+)\s*@\s*(.+)
  frame_name_at_loc :=
    RE.seq (RE.grp 1 wPlus) (RE.seq wsStar (RE.seq (litS "@") (RE.seq wsStar (RE.grp 2 dotPlus))))
  -- ([^/]+\.[a-z]+):(\d+)(?::\d+)?$
  location_file_line :=
    RE.seq (RE.grp 1 (RE.seq (plusC (fun c => c != '/')) (RE.seq (litS ".") lowPlus)))
      (RE.seq (litS ":")
        (RE.seq (RE.grp 2 dPlus) (RE.seq (RE.opt (RE.seq (litS ":") dPlus)) RE.eot)))

-- ───────────────────────────────────────────────────────────────────────────
-- Error types (the `ErrorType` enum)
-- ───────────────────────────────────────────────────────────────────────────

inductive ErrorType where
  | DomNesting | Hydration | ReactMinified | InvalidHook | ReactKey
  | TypeError | RefError | SyntaxError | RangeError | UriError | EvalError
  | CorsError | NetworkError | HttpError | WebSocketError
  | CspError | SecurityError | MixedContent
  | Storybook | NextJs | ModuleNotFound | Playwright
  | SystemError
  | UnhandledRejection
  | MediaError | IndexedDbError | ServiceWorker
  | Deprecation
  | RuntimeError
  deriving DecidableEq

/-- `ErrorType::ALL`: the detection registry order.  Order matters — more
specific patterns first, `RuntimeError` (catch-all) last. -/
def ErrorType.ALL : List ErrorType :=
  [ .DomNesting, .Hydration, .ReactMinified, .InvalidHook, .ReactKey,
    .CorsError, .CspError, .MixedContent, .SecurityError,
    .ServiceWorker, .MediaError, .IndexedDbError,
    .NetworkError, .WebSocketError, .HttpError,
    .Playwright, .Storybook, .NextJs, .ModuleNotFound,
    .UnhandledRejection,
    .TypeError, .RefError, .SyntaxError, .RangeError, .UriError, .EvalError,
    .SystemError,
    .Deprecation,
    .RuntimeError ]

/-- `ErrorType::name`. -/
def ErrorType.name : ErrorType → String
  | .DomNesting => "DOM_NESTING"
  | .Hydration => "HYDRATION"
  | .ReactMinified => "REACT_MINIFIED"
  | .InvalidHook => "INVALID_HOOK"
  | .ReactKey => "REACT_KEY"
  | .TypeError => "TYPE_ERROR"
  | .RefError => "REF_ERROR"
  | .SyntaxError => "SYNTAX_ERROR"
  | .RangeError => "RANGE_ERROR"
  | .UriError => "URI_ERROR"
  | .EvalError => "EVAL_ERROR"
  | .CorsError => "CORS_ERROR"
  | .NetworkError => "NETWORK_ERROR"
  | .HttpError => "HTTP_ERROR"
  | .WebSocketError => "WEBSOCKET_ERROR"
  | .CspError => "CSP_ERROR"
  | .SecurityError => "SECURITY_ERROR"
  | .MixedContent => "MIXED_CONTENT"
  | .Storybook => "STORYBOOK"
  | .NextJs => "NEXTJS"
  | .ModuleNotFound => "MODULE_NOT_FOUND"
  | .Playwright => "PLAYWRIGHT"
  | .SystemError => "SYSTEM_ERROR"
  | .UnhandledRejection => "UNHANDLED_REJECTION"
  | .MediaError => "MEDIA_ERROR"
  | .IndexedDbError => "INDEXEDDB_ERROR"
  | .ServiceWorker => "SERVICE_WORKER"
  | .Deprecation => "DEPRECATION"
  | .RuntimeError => "RUNTIME_ERROR"

/-- `ErrorType::pattern`: the detection pattern of each category. -/
def ErrorType.pattern : ErrorType → RE
  | .DomNesting => PATTERNS.dom_nesting
  | .Hydration => PATTERNS.hydration
  | .ReactMinified => PATTERNS.react_minified
  | .InvalidHook => PATTERNS.invalid_hook
  | .ReactKey => PATTERNS.react_key
  | .TypeError => PATTERNS.type_error
  | .RefError => PATTERNS.ref_error
  | .SyntaxError => PATTERNS.syntax_error
  | .RangeError => PATTERNS.range_error
  | .UriError => PATTERNS.uri_error
  | .EvalError => PATTERNS.eval_error
  | .CorsError => PATTERNS.cors_error
  | .NetworkError => PATTERNS.network_error
  | .HttpError => PATTERNS.http_error
  | .WebSocketError => PATTERNS.websocket_error
  | .CspError => PATTERNS.csp_error
  | .SecurityError => PATTERNS.security_error
  | .MixedContent => PATTERNS.mixed_content
  | .Storybook => PATTERNS.storybook
  | .NextJs => PATTERNS.nextjs
  | .ModuleNotFound => PATTERNS.module_not_found
  | .Playwright => PATTERNS.playwright
  | .SystemError => PATTERNS.system_error
  | .UnhandledRejection => PATTERNS.unhandled_rejection
  | .MediaError => PATTERNS.media_error
  | .IndexedDbError => PATTERNS.indexeddb_error
  | .ServiceWorker => PATTERNS.service_worker
  | .Deprecation => PATTERNS.deprecation
  | .RuntimeError => PATTERNS.stack_trace

-- ───────────────────────────────────────────────────────────────────────────
-- Detection (`detect_error_type`)
-- ───────────────────────────────────────────────────────────────────────────

/-- `detect_error_type`: first registry entry whose pattern matches. -/
def detect_error_type (input : String) : Option ErrorType :=
  ErrorType.ALL.find? (fun t => isMatch t.pattern input)

-- ───────────────────────────────────────────────────────────────────────────
-- String utilities shared by the extractors
-- ───────────────────────────────────────────────────────────────────────────

/-- First occurrence of `ndl` in `hay` at or past position `i` (fuel-bounded
scan). -/
def findSubAux (hay ndl : List Char) : Nat → Nat → Option Nat
  | _, 0 => none
  | i, Nat.succ fuel =>
      if prefixAt ndl hay i then some i else findSubAux hay ndl (i + 1) fuel

/-- Rust `str::find` for a literal needle: position of its first occurrence. -/
def findSub (hay ndl : List Char) : Option Nat := findSubAux hay ndl 0 (hay.length + 1)

/-- Rust `str::contains` for a literal needle. -/
def containsSub (hay ndl : List Char) : Bool := (findSub hay ndl).isSome

/-- Strip one trailing carriage return, as Rust `str::lines` does. -/
def stripCrL (l : List Char) : List Char :=
  if l.getLast? = some '\r' then l.dropLast else l

/-- Split at every newline, keeping empty segments. -/
def splitNl : List Char → List (List Char)
  | [] => [[]]
  | c :: cs =>
      if c = '\n' then [] :: splitNl cs
      else
        match splitNl cs with
        | l :: rest => (c :: l) :: rest
        | [] => [[c]]

/-- Rust `str::lines`: split on `'\n'`, drop a final empty segment produced
by a trailing newline, strip one trailing `'\r'` per line. -/
def rustLines (s : String) : List String :=
  match s.data with
  | [] => []
  | cs =>
      let parts := splitNl cs
      let parts := if parts.getLast? = some [] then parts.dropLast else parts
      parts.map (fun l => String.mk (stripCrL l))

/-- Rust `str::trim`. -/
def trimL (cs : List Char) : List Char :=
  ((cs.dropWhile Char.isWhitespace).reverse.dropWhile Char.isWhitespace).reverse

/-- Rust `str::trim` on strings. -/
def rustTrim (s : String) : String := String.mk (trimL s.data)

/-- Rust `str::to_lowercase` (ASCII folding). -/
def lowerS (s : String) : String := String.mk (s.data.map Char.toLower)

/-- Rust `str::starts_with` for a literal. -/
def startsWithS (s p : String) : Bool := p.data.isPrefixOf s.data

-- ───────────────────────────────────────────────────────────────────────────
-- Truncation utility (`truncate`)
-- ───────────────────────────────────────────────────────────────────────────

/-- Is byte position `i` a UTF-8 character boundary of `cs`
(Rust `str::is_char_boundary`)? -/
def isCharBoundary (cs : List Char) (i : Nat) : Bool :=
  (List.range (cs.length + 1)).any (fun k => utf8LenL (cs.take k) == i)

/-- The boundary-decrement loop of `truncate`: the largest character
boundary at most `i`. -/
def floorBoundary (cs : List Char) : Nat → Nat
  | 0 => 0
  | Nat.succ j => if isCharBoundary cs (j + 1) then j + 1 else floorBoundary cs j

/-- The characters of `cs` occupying the first `n` bytes (Rust `&s[..n]`
for `n` a character boundary). -/
def bytesPrefix : List Char → Nat → List Char
  | [], _ => []
  | c :: cs, n => if c.utf8Size ≤ n then c :: bytesPrefix cs (n - c.utf8Size) else []

/-- `truncate`: byte-length comparison against `max_len`, saturating
`max_len - 3`, decrement to the nearest character boundary, slice, append
`"..."`. -/
def truncate (s : String) (maxLen : Nat) : String :=
  if utf8Len s ≤ maxLen then s
  else
    let truncateAt := maxLen - 3
    let boundary := floorBoundary s.data (min truncateAt (utf8Len s))
    String.mk (bytesPrefix s.data boundary ++ ['.', '.', '.'])

-- ───────────────────────────────────────────────────────────────────────────
-- Extraction (`extract_file_location`, `extract_issue`, `extract_user_frames`)
-- ───────────────────────────────────────────────────────────────────────────

/-- The full line of `s` containing the span `st..en`:
`s[..st].rfind('\n')+1` up to `s[en..].find('\n')+en`. -/
def containingLine (s : List Char) (st en : Nat) : List Char :=
  let b :=
    match (s.take st).reverse.findIdx? (fun c => c == '\n') with
    | some k => st - 1 - k + 1
    | none => 0
  let e :=
    match (s.drop en).findIdx? (fun c => c == '\n') with
    | some k => en + k
    | none => s.length
  (s.take e).drop b

/-- Does the line containing match `m` avoid the vendored-code marker? -/
def cleanLine (input : String) (m : Nat × Nat) : Bool :=
  !containsSub (containingLine input.data m.1 m.2) "node_modules".data

/-- `extract_file_location`: all `file_location` matches; first one on a
line without `"node_modules"`, else the first match, else nothing. -/
def extract_file_location (input : String) : Option String :=
  let allMatches := findIter PATTERNS.file_location input.data
  match allMatches.find? (cleanLine input) with
  | some m => some (sliceS input m.1 m.2)
  | none => allMatches.head?.map (fun m => sliceS input m.1 m.2)

/-- `find_line_containing`: first line whose lowercasing contains one of
the lowercased needles, trimmed. -/
def find_line_containing (input : String) (needles : List String) : Option String :=
  ((rustLines input).find? (fun line =>
    needles.any (fun n => containsSub (lowerS line).data (lowerS n).data))).map rustTrim

/-- Does `line` start with one of the prefixes? -/
def startsAnyB (ps : List String) (line : String) : Bool :=
  ps.any (fun p => startsWithS line p)

/-- The inner prefix loop of `find_line_starting_with`'s fallback: first
listed prefix occurring anywhere in the line, returning the line from that
occurrence on. -/
def prefixFind (line : String) : List String → Option String
  | [] => none
  | p :: rest =>
      match findSub line.data p.data with
      | some i => some (String.mk (line.data.drop i))
      | none => prefixFind line rest

/-- The fallback loop of `find_line_starting_with` over all lines. -/
def fallbackScan (ps : List String) : List String → Option String
  | [] => none
  | l :: rest =>
      match prefixFind l ps with
      | some r => some r
      | none => fallbackScan ps rest

/-- `find_line_starting_with`: first line starting with one of the
prefixes; otherwise the first line containing one anywhere, cut at the
occurrence; otherwise nothing. -/
def find_line_starting_with (input : String) (ps : List String) : Option String :=
  match (rustLines input).find? (startsAnyB ps) with
  | some line => some line
  | none => fallbackScan ps (rustLines input)

/-- `extract_by_pattern_or_contains`. -/
def extract_by_pattern_or_contains (input : String) (r : RE) (fallback : String) : Option String :=
  match reFind r input.data with
  | some (st, en, _) => some (sliceS input st en)
  | none => find_line_containing input [fallback]

/-- `extract_first_match`. -/
def extract_first_match (input : String) (r : RE) : Option String :=
  (reFind r input.data).map (fun m => sliceS input m.1 m.2.1)

/-- `extract_first_match_truncated`. -/
def extract_first_match_truncated (input : String) (r : RE) (maxLen : Nat) : Option String :=
  (reFind r input.data).map (fun m => truncate (sliceS input m.1 m.2.1) maxLen)

/-- `extract_issue`: the per-category issue-line strategies. -/
def extract_issue (input : String) (et : ErrorType) : Option String :=
  match et with
  | .DomNesting => extract_by_pattern_or_contains input PATTERNS.dom_issue "descendant"
  | .Hydration => find_line_containing input ["hydration", "mismatch", "server", "client"]
  | .ReactMinified => find_line_containing input ["Minified React error", "react.production"]
  | .InvalidHook => find_line_containing input ["Invalid hook", "Rules of Hooks", "rendered more hooks"]
  | .ReactKey => find_line_starting_with input ["Encountered two children with the same key"]
  | .TypeError => find_line_starting_with input ["TypeError:", "Uncaught TypeError"]
  | .RefError => find_line_starting_with input ["ReferenceError:", "Uncaught ReferenceError"]
  | .SyntaxError => find_line_starting_with input ["SyntaxError:", "Uncaught SyntaxError"]
  | .RangeError => find_line_starting_with input ["RangeError:", "Uncaught RangeError"]
  | .UriError => find_line_starting_with input ["URIError:", "Uncaught URIError"]
  | .EvalError => find_line_starting_with input ["EvalError:", "Uncaught EvalError"]
  | .CorsError => find_line_containing input ["CORS", "Access-Control", "cross-origin", "blocked"]
  | .NetworkError => find_line_containing input ["Failed to fetch", "NetworkError", "net::ERR_", "fetch"]
  | .HttpError =>
      (extract_first_match input PATTERNS.http_status).bind
        (fun status => find_line_containing input [status])
  | .WebSocketError => find_line_containing input ["WebSocket", "ws://", "wss://"]
  | .CspError => find_line_containing input ["Content-Security-Policy", "CSP", "directive", "violated"]
  | .SecurityError => find_line_containing input ["SecurityError", "security", "blocked"]
  | .MixedContent => find_line_containing input ["Mixed Content", "insecure", "http://"]
  | .Storybook => extract_first_match_truncated input PATTERNS.storybook_code 100
  | .NextJs =>
      (extract_first_match_truncated input PATTERNS.nextjs_code 100).orElse
        (fun _ => find_line_containing input ["NEXT_", "getServerSideProps", "getStaticProps"])
  | .ModuleNotFound => find_line_containing input ["Module not found", "Cannot find module", "Cannot resolve"]
  | .Playwright =>
      find_line_containing input
        ["TimeoutError", "locator", "expect(", "waiting for", "strict mode", "Timeout"]
  | .SystemError => extract_first_match input PATTERNS.system_code
  | .UnhandledRejection => find_line_containing input ["Unhandled", "rejection", "promise"]
  | .MediaError => find_line_containing input ["MediaError", "play()", "autoplay", "media"]
  | .IndexedDbError => find_line_containing input ["IndexedDB", "IDBDatabase", "QuotaExceeded"]
  | .ServiceWorker => find_line_containing input ["ServiceWorker", "service worker", "SW"]
  | .Deprecation => find_line_containing input ["deprecated", "deprecation", "will be removed"]
  | .RuntimeError => (rustLines input).head?

/-- Does a line qualify as a user frame (matches `user_frame`, does not
match `framework_noise`)? -/
def userFrameQual (line : String) : Bool :=
  isMatch PATTERNS.user_frame line && !isMatch PATTERNS.framework_noise line

/-- `extract_user_frames`: first three qualifying lines, trimmed. -/
def extract_user_frames (input : String) : List String :=
  (((rustLines input).filter userFrameQual).take 3).map rustTrim

-- ───────────────────────────────────────────────────────────────────────────
-- Output model (`ToonifiedError`)
-- ───────────────────────────────────────────────────────────────────────────

structure ToonifiedError where
  error_type : ErrorType
  file_location : Option String
  issue : Option String
  frames : List String
  original_len : Nat

/-- `ToonifiedError::new`. -/
def ToonifiedError.new (input : String) (et : ErrorType) : ToonifiedError where
  error_type := et
  file_location := extract_file_location input
  issue := extract_issue input et
  frames := extract_user_frames input
  original_len := utf8Len input

/-- Rust `Vec<String>::join("\n")`. -/
def joinNl : List String → String
  | [] => ""
  | [x] => x
  | x :: y :: rest => x ++ "\n" ++ joinNl (y :: rest)

-- ───────────────────────────────────────────────────────────────────────────
-- Plain formatter (`format_plain`)
-- ───────────────────────────────────────────────────────────────────────────

/-- The record block of `format_plain` (and its `lines` vector at the
point where the stats are computed): type, optional file, optional issue,
optional frames block. -/
def recordLines (e : ToonifiedError) : List String :=
  ["type: " ++ e.error_type.name]
  ++ (match e.file_location with
      | some loc => ["file: " ++ loc]
      | none => [])
  ++ (match e.issue with
      | some iss => ["issue: " ++ iss]
      | none => [])
  ++ (if e.frames.isEmpty then [] else "frames:" :: e.frames.map (fun f => "  " ++ f))

/-- The `compressed: {orig}c → {comp}c ({pct}% saved)` stats line. -/
def plainStatsLine (orig comp pct : Nat) : String :=
  "compressed: " ++ Nat.repr orig ++ "c → " ++ Nat.repr comp ++ "c (" ++ Nat.repr pct ++ "% saved)"

/-- `ToonifiedError::format_plain`. -/
def ToonifiedError.format_plain (e : ToonifiedError) : String :=
  let lines := recordLines e
  let content := joinNl lines
  let stats_overhead := 40
  let compressed_len := utf8Len content + stats_overhead
  let savings :=
    if compressed_len < e.original_len then (e.original_len - compressed_len) * 100 / e.original_len
    else 0
  joinNl (lines ++ ["", "---", plainStatsLine e.original_len compressed_len savings])

-- ───────────────────────────────────────────────────────────────────────────
-- TOON formatter (`format_toon`, `parse_frame`, `simplify_location`)
-- ───────────────────────────────────────────────────────────────────────────

/-- Run `r` on `s` and pull out capture groups 1 and 2 with the given
defaults, as the frame-parsing call sites do
(`captures.get(n).map(as_str).unwrap_or(default)`). -/
def capt2 (r : RE) (s : String) (d1 d2 : String) : Option (String × String) :=
  match reFind r s.data with
  | none => none
  | some (_, _, cp) =>
      let get := fun (n : Nat) (dflt : String) =>
        match cp.find? (fun entry => entry.1 == n) with
        | some entry => sliceS s entry.2.1 entry.2.2
        | none => dflt
      some (get 1 d1, get 2 d2)

/-- `simplify_location`: keep only the trailing `filename.ext:line`,
dropping any path/URL prefix and the column; unchanged (trimmed) when the
pattern does not match. -/
def simplify_location (loc : String) : String :=
  let l := rustTrim loc
  match capt2 PATTERNS.location_file_line l l "" with
  | some (file, line) => file ++ ":" ++ line
  | none => l

/-- `parse_frame`: try the three call-site shapes in order, first match
wins; fall back to the trimmed frame with an empty location. -/
def parse_frame (frame : String) : String × String :=
  let f := rustTrim frame
  match capt2 PATTERNS.frame_at_name_loc f "unknown" "" with
  | some (fn, loc) => (fn, simplify_location loc)
  | none =>
  match capt2 PATTERNS.frame_at_symbol_loc f "unknown" "" with
  | some (fn, loc) => (fn, simplify_location loc)
  | none =>
  match capt2 PATTERNS.frame_name_at_loc f "unknown" "" with
  | some (fn, loc) => (fn, simplify_location loc)
  | none => (f, "")

/-- Rust `str::replace(',', "\\,")`. -/
def escapeCommasL : List Char → List Char
  | [] => []
  | c :: cs => if c = ',' then '\\' :: ',' :: escapeCommasL cs else c :: escapeCommasL cs

/-- Comma escaping on strings. -/
def escapeCommas (s : String) : String := String.mk (escapeCommasL s.data)

/-- The `frames[N]{fn,loc}:` header. -/
def toonFramesHeader (n : Nat) : String :=
  "frames[" ++ Nat.repr n ++ "]\x7bfn,loc\x7d:"

/-- One `  fn,loc` row. -/
def toonFrameRow (fl : String × String) : String := "  " ++ fl.1 ++ "," ++ fl.2

/-- The lines of `format_toon` accumulated before the stats line. -/
def toonContentLines (e : ToonifiedError) : List String :=
  ["type: " ++ e.error_type.name]
  ++ (match e.file_location with
      | some loc => ["file: " ++ loc]
      | none => [])
  ++ (match e.issue with
      | some iss => ["issue: " ++ escapeCommas iss]
      | none => [])
  ++ (if e.frames.isEmpty then []
      else toonFramesHeader (e.frames.map parse_frame).length
        :: (e.frames.map parse_frame).map toonFrameRow)

/-- The `stats{orig,comp,pct}: o,c,p` line. -/
def toonStatsLine (orig comp pct : Nat) : String :=
  "stats\x7borig,comp,pct\x7d: " ++ Nat.repr orig ++ "," ++ Nat.repr comp ++ "," ++ Nat.repr pct

/-- All lines of `format_toon`, stats included. -/
def toonAllLines (e : ToonifiedError) : List String :=
  let lines := toonContentLines e
  let content := joinNl lines
  let stats_line_len := 30
  let compressed_len := utf8Len content + stats_line_len
  let savings :=
    if compressed_len < e.original_len then (e.original_len - compressed_len) * 100 / e.original_len
    else 0
  lines ++ [toonStatsLine e.original_len compressed_len savings]

/-- `ToonifiedError::format_toon`. -/
def ToonifiedError.format_toon (e : ToonifiedError) : String :=
  joinNl (toonAllLines e)

-- ───────────────────────────────────────────────────────────────────────────
-- Spec-worded variants (for refinement comparisons only)
-- ───────────────────────────────────────────────────────────────────────────

/-- Variant of `truncate` following the spec's words: the cut keeps
`max_length - 3` whole text-characters (not bytes). -/
def truncateSpecChars (s : String) (maxLen : Nat) : String :=
  if s.data.length ≤ maxLen then s
  else String.mk (s.data.take (maxLen - 3) ++ ['.', '.', '.'])

/-- Variant of `find_line_starting_with` following the spec's words: the
first pass keeps the first line whose TRIMMED start matches a prefix. -/
def findLineStartingWithSpecTrim (input : String) (ps : List String) : Option String :=
  match (rustLines input).find? (fun line => ps.any (fun p => startsWithS (rustTrim line) p)) with
  | some line => some line
  | none => fallbackScan ps (rustLines input)

/-- The literal prefix lists that `extract_issue` passes to
`find_line_starting_with` for the six JS runtime error categories. -/
def jsPrefixes : ErrorType → List String
  | .TypeError => ["TypeError:", "Uncaught TypeError"]
  | .RefError => ["ReferenceError:", "Uncaught ReferenceError"]
  | .SyntaxError => ["SyntaxError:", "Uncaught SyntaxError"]
  | .RangeError => ["RangeError:", "Uncaught RangeError"]
  | .UriError => ["URIError:", "Uncaught URIError"]
  | .EvalError => ["EvalError:", "Uncaught EvalError"]
  | _ => []

/-- Behaviour of `find_line_starting_with input ps`: first-pass selection
of the first line starting (untrimmed) with a listed prefix; fallback to
the first line containing a listed prefix anywhere, cut at the first
occurrence of the first listed prefix present; nothing when neither pass
finds a line. -/
def flswCharacterization (input : String) (ps : List String) : Prop :=
  ((∃ l1 line l2, rustLines input = l1 ++ line :: l2 ∧ startsAnyB ps line = true ∧
      (∀ x ∈ l1, startsAnyB ps x = false) ∧
      find_line_starting_with input ps = some line) ∨
   ((∀ x ∈ rustLines input, startsAnyB ps x = false) ∧
      find_line_starting_with input ps = fallbackScan ps (rustLines input))) ∧
  (∀ r, fallbackScan ps (rustLines input) = some r →
      ∃ l1 line l2, rustLines input = l1 ++ line :: l2 ∧
        (∀ x ∈ l1, prefixFind x ps = none) ∧ prefixFind line ps = some r) ∧
  (∀ line r, prefixFind line ps = some r →
      ∃ i p, p ∈ ps ∧ findSub line.data p.data = some i ∧
        r = String.mk (line.data.drop i) ∧ prefixAt p.data line.data i = true ∧
        ∀ j < i, prefixAt p.data line.data j = false) ∧
  (find_line_starting_with input ps = none ↔
      ∀ x ∈ rustLines input, startsAnyB ps x = false ∧ prefixFind x ps = none)

/-- Variant of `parse_frame` following the spec's words: when no call-site
shape matches, the WHOLE frame string (untrimmed) is kept as the function
field. -/
def parseFrameSpecWhole (frame : String) : String × String :=
  let f := rustTrim frame
  match capt2 PATTERNS.frame_at_name_loc f "unknown" "" with
  | some (fn, loc) => (fn, simplify_location loc)
  | none =>
  match capt2 PATTERNS.frame_at_symbol_loc f "unknown" "" with
  | some (fn, loc) => (fn, simplify_location loc)
  | none =>
  match capt2 PATTERNS.frame_name_at_loc f "unknown" "" with
  | some (fn, loc) => (fn, simplify_location loc)
  | none => (frame, "")

-- ═══════════════════════════════════════════════════════════════════════════
-- Theorems
-- ═══════════════════════════════════════════════════════════════════════════

-- ───────────────────────────────────────────────────────────────────────────
-- Generic helper lemmas
-- ───────────────────────────────────────────────────────────────────────────

/-- Characterisation of `List.find?` by a split of the list: the found
element is the first satisfying one. -/
theorem find_first_iff {α : Type} (p : α → Bool) (l : List α) (a : α) :
    l.find? p = some a ↔
      ∃ l1 l2, l = l1 ++ a :: l2 ∧ p a = true ∧ ∀ x ∈ l1, p x = false := by
  induction l with
  | nil => simp
  | cons b t ih =>
    cases hb : p b with
    | true =>
      rw [List.find?_cons_of_pos _ hb]
      constructor
      · intro h
        injection h with h
        subst h
        exact ⟨[], t, rfl, hb, by simp⟩
      · rintro ⟨l1, l2, heq, hpa, hall⟩
        cases l1 with
        | nil =>
          injection heq with h1 _
          rw [h1]
        | cons c l1 =>
          injection heq with h1 _
          subst h1
          have := hall b (by simp)
          rw [this] at hb
          cases hb
    | false =>
      rw [List.find?_cons_of_neg _ (by simp [hb]), ih]
      constructor
      · rintro ⟨l1, l2, heq, hpa, hall⟩
        refine ⟨b :: l1, l2, by rw [heq]; rfl, hpa, ?_⟩
        intro x hx
        rcases List.mem_cons.mp hx with h | h
        · rw [h]; exact hb
        · exact hall x h
      · rintro ⟨l1, l2, heq, hpa, hall⟩
        cases l1 with
        | nil =>
          injection heq with h1 _
          subst h1
          rw [hpa] at hb
          cases hb
        | cons c l1 =>
          injection heq with h1 h2
          subst h1
          exact ⟨l1, l2, h2, hpa, fun x hx => hall x (List.mem_cons_of_mem _ hx)⟩

/-- `(a ++ b).data = a.data ++ b.data` -/
theorem strApp_data (a b : String) : (a ++ b).data = a.data ++ b.data := by
  cases a; cases b; rfl

/-- Strings with equal character lists are equal. -/
theorem strEq_of_data {a b : String} (h : a.data = b.data) : a = b := by
  cases a; cases b; exact congrArg String.mk h

theorem utf8LenL_cons (c : Char) (t : List Char) :
    utf8LenL (c :: t) = c.utf8Size + utf8LenL t := by
  simp [utf8LenL]

theorem utf8LenL_append (a b : List Char) :
    utf8LenL (a ++ b) = utf8LenL a + utf8LenL b := by
  simp [utf8LenL]

theorem utf8Len_append (a b : String) : utf8Len (a ++ b) = utf8Len a + utf8Len b := by
  rw [utf8Len, utf8Len, utf8Len, strApp_data, utf8LenL_append]

/-- `join` distributes over an append of non-empty line blocks, inserting
one separator. -/
theorem joinNl_append (xs ys : List String) (hx : xs ≠ []) (hy : ys ≠ []) :
    joinNl (xs ++ ys) = joinNl xs ++ "\n" ++ joinNl ys := by
  induction xs with
  | nil => exact absurd rfl hx
  | cons x xs ih =>
    cases xs with
    | nil =>
      cases ys with
      | nil => exact absurd rfl hy
      | cons y ys => simp [joinNl]
    | cons x2 xs2 =>
      have h2 := ih (by simp)
      show joinNl (x :: ((x2 :: xs2) ++ ys)) = (joinNl (x :: x2 :: xs2) ++ "\n") ++ joinNl ys
      have hcons : joinNl (x :: ((x2 :: xs2) ++ ys)) = x ++ "\n" ++ joinNl ((x2 :: xs2) ++ ys) := rfl
      rw [hcons, h2]
      apply strEq_of_data
      simp [strApp_data, List.append_assoc, joinNl]

/-- A string not starting with `'-'` is not the separator `"---"`. -/
theorem ne_dashes_of_head (s : String) (h : s.data.head? ≠ some '-') : s ≠ "---" := by
  intro he
  rw [he] at h
  exact h rfl

-- ───────────────────────────────────────────────────────────────────────────
-- Scanning-loop lemmas
-- ───────────────────────────────────────────────────────────────────────────

/-- A successful `findSubAux` scan returns an occurrence and nothing
earlier in the scanned range succeeds. -/
theorem findSubAux_some (hay ndl : List Char) :
    ∀ fuel i r, findSubAux hay ndl i fuel = some r →
      prefixAt ndl hay r = true ∧ i ≤ r ∧ ∀ j, i ≤ j → j < r → prefixAt ndl hay j = false := by
  intro fuel
  induction fuel with
  | zero => intro i r h; cases h
  | succ f ih =>
    intro i r h
    simp only [findSubAux] at h
    cases hp : prefixAt ndl hay i with
    | true =>
      rw [hp] at h
      simp only [if_pos rfl] at h
      injection h with h
      subst h
      exact ⟨hp, Nat.le_refl _, fun j hj1 hj2 => absurd (Nat.lt_of_le_of_lt hj1 hj2) (Nat.lt_irrefl _)⟩
    | false =>
      rw [hp] at h
      simp only [Bool.false_eq_true, if_false] at h
      obtain ⟨h1, h2, h3⟩ := ih (i + 1) r h
      refine ⟨h1, Nat.le_trans (Nat.le_succ i) h2, ?_⟩
      intro j hj1 hj2
      rcases Nat.eq_or_lt_of_le hj1 with heq | hlt
      · rw [← heq]; exact hp
      · exact h3 j hlt hj2

/-- `findSub` finds the first occurrence of the needle. -/
theorem findSub_some (hay ndl : List Char) (i : Nat) (h : findSub hay ndl = some i) :
    prefixAt ndl hay i = true ∧ ∀ j < i, prefixAt ndl hay j = false := by
  obtain ⟨h1, _, h3⟩ := findSubAux_some hay ndl (hay.length + 1) 0 i h
  exact ⟨h1, fun j hj => h3 j (Nat.zero_le j) hj⟩

/-- A successful `prefixFind` is produced by a listed prefix occurring in
the line, cut at its first occurrence. -/
theorem prefixFind_some (line : String) (ps : List String) (r : String)
    (h : prefixFind line ps = some r) :
    ∃ i p, p ∈ ps ∧ findSub line.data p.data = some i ∧
      r = String.mk (line.data.drop i) := by
  induction ps with
  | nil => cases h
  | cons p rest ih =>
    simp only [prefixFind] at h
    cases hf : findSub line.data p.data with
    | some i =>
      rw [hf] at h
      injection h with h
      exact ⟨i, p, by simp, hf, h.symm⟩
    | none =>
      rw [hf] at h
      obtain ⟨i, q, hq, hfq, hr⟩ := ih h
      exact ⟨i, q, by simp [hq], hfq, hr⟩

/-- A successful fallback scan is produced by the first line on which
`prefixFind` succeeds. -/
theorem fallbackScan_some (ps : List String) (L : List String) (r : String)
    (h : fallbackScan ps L = some r) :
    ∃ l1 line l2, L = l1 ++ line :: l2 ∧ (∀ x ∈ l1, prefixFind x ps = none) ∧
      prefixFind line ps = some r := by
  induction L with
  | nil => cases h
  | cons b t ih =>
    simp only [fallbackScan] at h
    cases hb : prefixFind b ps with
    | some v =>
      rw [hb] at h
      injection h with h
      subst h
      exact ⟨[], b, t, rfl, by simp, hb⟩
    | none =>
      rw [hb] at h
      obtain ⟨l1, line, l2, heq, hall, hline⟩ := ih h
      refine ⟨b :: l1, line, l2, by rw [heq]; rfl, ?_, hline⟩
      intro x hx
      rcases List.mem_cons.mp hx with hx | hx
      · rw [hx]; exact hb
      · exact hall x hx

/-- The fallback scan fails exactly when every line fails. -/
theorem fallbackScan_none (ps : List String) (L : List String) :
    fallbackScan ps L = none ↔ ∀ x ∈ L, prefixFind x ps = none := by
  induction L with
  | nil => simp [fallbackScan]
  | cons b t ih =>
    simp only [fallbackScan]
    cases hb : prefixFind b ps with
    | some v => simp [hb]
    | none => simp [hb, ih]

-- ───────────────────────────────────────────────────────────────────────────
-- Truncation lemmas
-- ───────────────────────────────────────────────────────────────────────────

theorem isCharBoundary_iff (cs : List Char) (i : Nat) :
    isCharBoundary cs i = true ↔ ∃ k, k ≤ cs.length ∧ utf8LenL (cs.take k) = i := by
  simp [isCharBoundary, List.any_eq_true, List.mem_range, Nat.lt_succ_iff]

theorem isCharBoundary_zero (cs : List Char) : isCharBoundary cs 0 = true := by
  rw [isCharBoundary_iff]
  exact ⟨0, Nat.zero_le _, rfl⟩

theorem floorBoundary_le (cs : List Char) (i : Nat) : floorBoundary cs i ≤ i := by
  induction i with
  | zero => exact Nat.le_refl 0
  | succ j ih =>
    simp only [floorBoundary]
    split
    · exact Nat.le_refl _
    · exact Nat.le_trans ih (Nat.le_succ j)

theorem floorBoundary_boundary (cs : List Char) (i : Nat) :
    isCharBoundary cs (floorBoundary cs i) = true := by
  induction i with
  | zero => exact isCharBoundary_zero cs
  | succ j ih =>
    simp only [floorBoundary]
    split
    · assumption
    · exact ih

theorem bytesPrefix_zero (cs : List Char) : bytesPrefix cs 0 = [] := by
  cases cs with
  | nil => rfl
  | cons c t => simp [bytesPrefix, Nat.not_le.mpr (Char.utf8Size_pos c)]

/-- On a character boundary `b`, `bytesPrefix` is a character-level prefix
occupying exactly `b` bytes (the slice `&s[..b]` is valid and splits no
character). -/
theorem bytesPrefix_take (cs : List Char) (b : Nat) (hb : isCharBoundary cs b = true) :
    ∃ k, k ≤ cs.length ∧ cs.take k = bytesPrefix cs b ∧ utf8LenL (cs.take k) = b := by
  induction cs generalizing b with
  | nil =>
    rw [isCharBoundary_iff] at hb
    obtain ⟨k, hk, he⟩ := hb
    refine ⟨0, Nat.le_refl _, rfl, ?_⟩
    simpa using he
  | cons c t ih =>
    cases b with
    | zero => exact ⟨0, Nat.zero_le _, (bytesPrefix_zero _).symm, rfl⟩
    | succ b =>
      rw [isCharBoundary_iff] at hb
      obtain ⟨k, hk, he⟩ := hb
      cases k with
      | zero => simp [utf8LenL] at he
      | succ k =>
        rw [List.take_succ_cons, utf8LenL_cons] at he
        have hsz : c.utf8Size ≤ b + 1 := by omega
        have hbt : isCharBoundary t (b + 1 - c.utf8Size) = true := by
          rw [isCharBoundary_iff]
          exact ⟨k, by simpa using hk, by omega⟩
        obtain ⟨k2, hk2, hpre, hlen⟩ := ih (b + 1 - c.utf8Size) hbt
        refine ⟨k2 + 1, by simpa using hk2, ?_, ?_⟩
        · rw [List.take_succ_cons, hpre]
          simp [bytesPrefix, hsz]
        · rw [List.take_succ_cons, utf8LenL_cons, hlen]
          omega

-- ───────────────────────────────────────────────────────────────────────────
-- Comma-escaping lemma
-- ───────────────────────────────────────────────────────────────────────────

/-- Every comma in the escaped text is immediately preceded by a
backslash. -/
theorem escapeCommasL_ok (cs : List Char) :
    ∀ i, (escapeCommasL cs).get? i = some ',' →
      0 < i ∧ (escapeCommasL cs).get? (i - 1) = some '\x5c' := by
  induction cs with
  | nil => intro i h; cases i <;> cases h
  | cons c t ih =>
    intro i h
    by_cases hc : c = ','
    · subst hc
      simp only [escapeCommasL, if_pos rfl] at h ⊢
      match i, h with
      | 1, _ => exact ⟨Nat.one_pos, rfl⟩
      | Nat.succ (Nat.succ n), h =>
        have hn := ih n (by simpa using h)
        obtain ⟨hp, hg⟩ := hn
        obtain ⟨m, rfl⟩ : ∃ m, n = m + 1 := ⟨n - 1, by omega⟩
        refine ⟨by omega, ?_⟩
        simpa using hg
    · simp only [escapeCommasL, if_neg hc] at h ⊢
      match i, h with
      | 0, h => exact absurd (by simpa using h) hc
      | Nat.succ n, h =>
        have hn := ih n (by simpa using h)
        obtain ⟨hp, hg⟩ := hn
        obtain ⟨m, rfl⟩ : ∃ m, n = m + 1 := ⟨n - 1, by omega⟩
        refine ⟨by omega, ?_⟩
        simpa using hg

-- ───────────────────────────────────────────────────────────────────────────
-- C1: classification order
-- ───────────────────────────────────────────────────────────────────────────

/-- C1: for every input text, `detect_error_type` returns the category of
the first rule of the fixed registry `ErrorType::ALL` whose pattern
matches the text, and `none` when no rule's pattern matches; the catch-all
stack-trace rule (`RuntimeError`, whose pattern is `stack_trace`) is the
last registry entry. -/
theorem detect_first_match (input : String) :
    (∀ t : ErrorType, detect_error_type input = some t ↔
        ∃ l1 l2, ErrorType.ALL = l1 ++ t :: l2 ∧ isMatch t.pattern input = true ∧
          ∀ u ∈ l1, isMatch u.pattern input = false) ∧
    (detect_error_type input = none ↔ ∀ t ∈ ErrorType.ALL, isMatch t.pattern input = false) ∧
    ErrorType.ALL.getLast? = some ErrorType.RuntimeError ∧
    ErrorType.RuntimeError.pattern = PATTERNS.stack_trace := by
  refine ⟨?_, ?_, rfl, rfl⟩
  · intro t
    exact find_first_iff (fun u => isMatch u.pattern input) ErrorType.ALL t
  · rw [detect_error_type, List.find?_eq_none]
    constructor
    · intro h t ht
      have := h t ht
      simpa using this
    · intro h t ht
      simp [h t ht]

/-- Witness for C1 at concrete inputs: the empty string matches no rule,
and a Storybook code is found first by the Storybook rule. -/
theorem detect_first_match_witness :
    detect_error_type "" = none ∧ detect_error_type "SB_X" = some ErrorType.Storybook :=
  ⟨(detect_first_match "").2.1.mpr (by decide),
   ((detect_first_match "SB_X").1 ErrorType.Storybook).mpr
     ⟨[.DomNesting, .Hydration, .ReactMinified, .InvalidHook, .ReactKey,
       .CorsError, .CspError, .MixedContent, .SecurityError,
       .ServiceWorker, .MediaError, .IndexedDbError,
       .NetworkError, .WebSocketError, .HttpError, .Playwright],
      [.NextJs, .ModuleNotFound, .UnhandledRejection,
       .TypeError, .RefError, .SyntaxError, .RangeError, .UriError, .EvalError,
       .SystemError, .Deprecation, .RuntimeError],
      by decide, by decide, by decide⟩⟩

-- ───────────────────────────────────────────────────────────────────────────
-- C3: user-frame extraction
-- ───────────────────────────────────────────────────────────────────────────

/-- C3: user-frame extraction returns at most 3 lines; they are exactly
the first up-to-three input lines matching the user-frame pattern and not
the framework-noise pattern, each trimmed, and the selected lines form a
sublist of the input lines (original document order). -/
theorem extract_user_frames_spec (input : String) :
    (extract_user_frames input).length ≤ 3 ∧
    extract_user_frames input = (((rustLines input).filter userFrameQual).take 3).map rustTrim ∧
    List.Sublist (((rustLines input).filter userFrameQual).take 3) (rustLines input) ∧
    ∀ l ∈ ((rustLines input).filter userFrameQual).take 3,
      isMatch PATTERNS.user_frame l = true ∧ isMatch PATTERNS.framework_noise l = false := by
  refine ⟨?_, rfl, ?_, ?_⟩
  · rw [extract_user_frames, List.length_map, List.length_take]
    exact Nat.min_le_left _ _
  · exact List.Sublist.trans (List.take_sublist _ _) (List.filter_sublist _)
  · intro l hl
    have hq := List.of_mem_filter (List.mem_of_mem_take hl)
    rw [userFrameQual, Bool.and_eq_true, Bool.not_eq_true'] at hq
    exact hq

/-- Witness for C3 at a concrete input. -/
theorem extract_user_frames_spec_witness :
    (extract_user_frames "at A (s/D.tsx:4:2)\nat B (node_modules/x.js:1:1)").length ≤ 3 :=
  (extract_user_frames_spec "at A (s/D.tsx:4:2)\nat B (node_modules/x.js:1:1)").1

-- ───────────────────────────────────────────────────────────────────────────
-- C4 / C9: truncation
-- ───────────────────────────────────────────────────────────────────────────

/-- Unfolding of `truncate` in the overflow case. -/
theorem truncate_of_lt (s : String) (n : Nat) (h : ¬ utf8Len s ≤ n) :
    truncate s n
      = String.mk (bytesPrefix s.data (floorBoundary s.data (min (n - 3) (utf8Len s)))
          ++ ['.', '.', '.']) := by
  rw [truncate, if_neg h]

/-- C4 counterexample: the claim says the cut keeps `max_len - 3`
text-characters, but the code cuts at `max_len - 3` BYTES (rounded down to
a character boundary).  On a string of eight 2-byte characters with
`max_len = 7`, the code keeps two characters (4 bytes) where the claim
predicts four characters. -/
theorem truncate_chars_cx :
    truncate "αααααααα" 7 = "αα..." ∧
    truncateSpecChars "αααααααα" 7 = "αααα..." ∧
    truncate "αααααααα" 7 ≠ truncateSpecChars "αααααααα" 7 := by
  refine ⟨by decide, by decide, by decide⟩

/-- C4 (amended): truncate returns the string unchanged when its BYTE
length fits; otherwise it keeps a whole-character prefix occupying at most
`max_len - 3` bytes (never splitting a multi-byte character) and appends
the ellipsis marker; a maximum length under 3 leaves just the marker; the
empty string is returned unchanged. -/
theorem truncate_amended_spec (s : String) (n : Nat) :
    (utf8Len s ≤ n → truncate s n = s) ∧
    (n < utf8Len s → ∃ k, truncate s n = String.mk (s.data.take k ++ ['.', '.', '.']) ∧
      utf8LenL (s.data.take k) ≤ n - 3) ∧
    (n < utf8Len s → n < 3 → truncate s n = "...") ∧
    truncate "" n = "" := by
  refine ⟨?_, ?_, ?_, ?_⟩
  · intro h
    simp [truncate, h]
  · intro h
    have hb := floorBoundary_boundary s.data (min (n - 3) (utf8Len s))
    obtain ⟨k, _, hpre, hlen⟩ := bytesPrefix_take s.data _ hb
    refine ⟨k, ?_, ?_⟩
    · rw [truncate_of_lt s n (by omega), ← hpre]
    · rw [hlen]
      exact Nat.le_trans (floorBoundary_le _ _) (Nat.min_le_left _ _)
  · intro h h3
    have h0 : n - 3 = 0 := by omega
    rw [truncate_of_lt s n (by omega), h0]
    have hm : min 0 (utf8Len s) = 0 := Nat.min_eq_left (Nat.zero_le _)
    rw [hm, show floorBoundary s.data 0 = 0 from rfl, bytesPrefix_zero]
    rfl
  · rw [truncate, if_pos (by simp [utf8Len, utf8LenL])]

/-- Witness for C4's amended theorem at concrete inputs. -/
theorem truncate_amended_spec_witness :
    truncate "hi" 10 = "hi" ∧
    (∃ k, truncate "hello world" 10 = String.mk ("hello world".data.take k ++ ['.', '.', '.']) ∧
      utf8LenL ("hello world".data.take k) ≤ 10 - 3) ∧
    truncate "hello" 2 = "..." :=
  ⟨(truncate_amended_spec "hi" 10).1 (by decide),
   (truncate_amended_spec "hello world" 10).2.1 (by decide),
   (truncate_amended_spec "hello" 2).2.2.1 (by decide) (by decide)⟩

/-- C9: truncate is total and panic-free — the cut position is `n - 3`
(saturating) moved down to a UTF-8 character boundary, so the result is
the unchanged string or a whole-character prefix plus the marker, and its
byte length never exceeds `max n 3`. -/
theorem truncate_byte_safe (s : String) (n : Nat) :
    isCharBoundary s.data (floorBoundary s.data (min (n - 3) (utf8Len s))) = true ∧
    floorBoundary s.data (min (n - 3) (utf8Len s)) ≤ n - 3 ∧
    utf8Len (truncate s n) ≤ max n 3 ∧
    (truncate s n = s ∨ ∃ k, truncate s n = String.mk (s.data.take k ++ ['.', '.', '.'])) := by
  have hb := floorBoundary_boundary s.data (min (n - 3) (utf8Len s))
  have hle : floorBoundary s.data (min (n - 3) (utf8Len s)) ≤ n - 3 :=
    Nat.le_trans (floorBoundary_le _ _) (Nat.min_le_left _ _)
  refine ⟨hb, hle, ?_, ?_⟩
  · by_cases h : utf8Len s ≤ n
    · rw [truncate, if_pos h]
      exact Nat.le_trans h (Nat.le_max_left _ _)
    · obtain ⟨k, _, hpre, hlen⟩ := bytesPrefix_take s.data _ hb
      rw [truncate_of_lt s n h, ← hpre]
      have heq : utf8Len (String.mk (s.data.take k ++ ['.', '.', '.']))
          = utf8LenL (s.data.take k) + 3 := by
        rw [utf8Len]
        show utf8LenL (s.data.take k ++ ['.', '.', '.']) = utf8LenL (s.data.take k) + 3
        rw [utf8LenL_append]
        rfl
      rw [heq, hlen]
      have h1 := Nat.le_max_left n 3
      have h2 := Nat.le_max_right n 3
      omega
  · by_cases h : utf8Len s ≤ n
    · exact Or.inl (by rw [truncate, if_pos h])
    · obtain ⟨k, _, hpre, _⟩ := bytesPrefix_take s.data _ hb
      exact Or.inr ⟨k, by rw [truncate_of_lt s n h, ← hpre]⟩

/-- Witness for C9 at a concrete multi-byte input: the byte bound holds
and the kept prefix is shorter than `n - 3` characters. -/
theorem truncate_byte_safe_witness :
    utf8Len (truncate "ααααα" 7) ≤ max 7 3 ∧ (truncate "ααααα" 7).data.length = 5 :=
  ⟨(truncate_byte_safe "ααααα" 7).2.2.1, by decide⟩

-- ───────────────────────────────────────────────────────────────────────────
-- C2: file-location extraction
-- ───────────────────────────────────────────────────────────────────────────

/-- A successful position scan starts at or after the scan origin, is a
real match of the pattern, and no earlier scanned position matches: the
leftmost-match property of `Regex::find`. -/
theorem searchAux_some (r : RE) (s : List Char) :
    ∀ fuel i st en cp, searchAux r s i fuel = some (st, en, cp) →
      i ≤ st ∧ findAt r s st = some (en, cp) ∧ ∀ j, i ≤ j → j < st → findAt r s j = none := by
  intro fuel
  induction fuel with
  | zero => intro i st en cp h; cases h
  | succ f ih =>
    intro i st en cp h
    simp only [searchAux] at h
    cases hf : findAt r s i with
    | some v =>
      obtain ⟨j2, cp2⟩ := v
      rw [hf] at h
      simp only [Option.some.injEq, Prod.mk.injEq] at h
      obtain ⟨rfl, rfl, rfl⟩ := h
      exact ⟨Nat.le_refl i, hf,
        fun j hj1 hj2 => absurd (Nat.lt_of_le_of_lt hj1 hj2) (Nat.lt_irrefl i)⟩
    | none =>
      rw [hf] at h
      obtain ⟨h1, h2, h3⟩ := ih (i + 1) st en cp h
      refine ⟨Nat.le_trans (Nat.le_succ i) h1, h2, ?_⟩
      intro j hj1 hj2
      rcases Nat.eq_or_lt_of_le hj1 with heq | hlt
      · rw [← heq]; exact hf
      · exact h3 j hlt hj2

/-- A failed position scan means no scanned position matches. -/
theorem searchAux_none (r : RE) (s : List Char) :
    ∀ fuel i, searchAux r s i fuel = none →
      ∀ j, i ≤ j → j < i + fuel → findAt r s j = none := by
  intro fuel
  induction fuel with
  | zero => intro i _ j hj1 hj2; exact absurd hj2 (by omega)
  | succ f ih =>
    intro i h j hj1 hj2
    simp only [searchAux] at h
    cases hf : findAt r s i with
    | some v =>
      obtain ⟨j2, cp2⟩ := v
      rw [hf] at h
      cases h
    | none =>
      rw [hf] at h
      rcases Nat.eq_or_lt_of_le hj1 with heq | hlt
      · rw [← heq]; exact hf
      · exact ih (i + 1) h j hlt (by omega)

/-- Conversely, a scan over positions with no match fails. -/
theorem searchAux_none_of (r : RE) (s : List Char) :
    ∀ fuel i, (∀ j, i ≤ j → j < i + fuel → findAt r s j = none) →
      searchAux r s i fuel = none := by
  intro fuel
  induction fuel with
  | zero => intro i _; rfl
  | succ f ih =>
    intro i h
    simp only [searchAux]
    rw [h i (Nat.le_refl i) (by omega)]
    exact ih (i + 1) (fun j hj1 hj2 => h j (by omega) (by omega))

/-- One-step unfolding of `findIter`. -/
theorem findIter_unfold (r : RE) (s : List Char) :
    findIter r s =
      (match searchAux r s 0 (s.length + 1) with
       | none => []
       | some (st, en, _) =>
          (st, en) :: findIterAux r s (if st < en then en else en + 1) s.length) := rfl

/-- The match list is empty exactly when the pattern matches at no
position of the text. -/
theorem findIter_nil_iff (r : RE) (s : List Char) :
    findIter r s = [] ↔ ∀ j, j ≤ s.length → findAt r s j = none := by
  rw [findIter_unfold]
  constructor
  · intro h j hj
    cases hs : searchAux r s 0 (s.length + 1) with
    | some v =>
      obtain ⟨st, en, cp⟩ := v
      rw [hs] at h
      cases h
    | none => exact searchAux_none r s (s.length + 1) 0 hs j (Nat.zero_le j) (by omega)
  · intro h
    rw [searchAux_none_of r s (s.length + 1) 0 (fun j _ hj2 => h j (by omega))]

/-- Every span in the match list is a real match of the pattern at its
start position. -/
theorem findIterAux_sound (r : RE) (s : List Char) :
    ∀ fuel pos m, m ∈ findIterAux r s pos fuel →
      ∃ cp, findAt r s m.1 = some (m.2, cp) := by
  intro fuel
  induction fuel with
  | zero => intro pos m h; exact absurd h (List.not_mem_nil m)
  | succ f ih =>
    intro pos m h
    simp only [findIterAux] at h
    cases hs : searchAux r s pos (s.length + 1 - pos) with
    | none =>
      rw [hs] at h
      exact absurd h (List.not_mem_nil m)
    | some v =>
      obtain ⟨st, en, cp⟩ := v
      rw [hs] at h
      rcases List.mem_cons.mp h with rfl | h2
      · exact ⟨cp, (searchAux_some r s (s.length + 1 - pos) pos st en cp hs).2.1⟩
      · exact ih _ m h2

/-- The head of the match list is the LEFTMOST match: the pattern matches
at its start and at no earlier position. -/
theorem findIter_head_leftmost (r : RE) (s : List Char) (m : Nat × Nat)
    (rest : List (Nat × Nat)) (h : findIter r s = m :: rest) :
    (∃ cp, findAt r s m.1 = some (m.2, cp)) ∧ ∀ j < m.1, findAt r s j = none := by
  rw [findIter_unfold] at h
  cases hs : searchAux r s 0 (s.length + 1) with
  | none =>
    rw [hs] at h
    cases h
  | some v =>
    obtain ⟨st, en, cp⟩ := v
    rw [hs] at h
    injection h with h1 _
    obtain ⟨_, h3, h4⟩ := searchAux_some r s (s.length + 1) 0 st en cp hs
    rw [← h1]
    exact ⟨⟨cp, h3⟩, fun j hj => h4 j (Nat.zero_le j) hj⟩

/-- Unfolding of `extract_file_location` when a clean-line match exists. -/
theorem extract_file_location_of_find (input : String) (m : Nat × Nat)
    (hf : (findIter PATTERNS.file_location input.data).find? (cleanLine input) = some m) :
    extract_file_location input = some (sliceS input m.1 m.2) := by
  simp only [extract_file_location]
  rw [hf]

/-- Unfolding of `extract_file_location` when every match is vendored. -/
theorem extract_file_location_of_none (input : String)
    (hf : (findIter PATTERNS.file_location input.data).find? (cleanLine input) = none) :
    extract_file_location input
      = (findIter PATTERNS.file_location input.data).head?.map (fun m => sliceS input m.1 m.2) := by
  simp only [extract_file_location]
  rw [hf]

/-- C2: file-location extraction returns the text of the first
`file_location` match whose containing line does not contain
`"node_modules"`; when every match sits on a vendored line it returns the
text of the first match in document order; and it returns nothing exactly
when there is no match at all.  The match list itself carries the
`find_iter` semantics: it is empty exactly when the pattern matches at no
position, each listed span is a real match at its start position, and the
head of the list is the leftmost match in the document. -/
theorem extract_file_location_spec (input : String) :
    (extract_file_location input = none ↔ findIter PATTERNS.file_location input.data = []) ∧
    (findIter PATTERNS.file_location input.data = [] ↔
        ∀ j, j ≤ input.data.length → findAt PATTERNS.file_location input.data j = none) ∧
    (∀ m ∈ findIter PATTERNS.file_location input.data,
        ∃ cp, findAt PATTERNS.file_location input.data m.1 = some (m.2, cp)) ∧
    (∀ m rest, findIter PATTERNS.file_location input.data = m :: rest →
        ∀ j < m.1, findAt PATTERNS.file_location input.data j = none) ∧
    (∀ s, extract_file_location input = some s ↔
        (∃ l1 m l2, findIter PATTERNS.file_location input.data = l1 ++ m :: l2 ∧
            cleanLine input m = true ∧ (∀ m2 ∈ l1, cleanLine input m2 = false) ∧
            s = sliceS input m.1 m.2) ∨
        ((∀ m ∈ findIter PATTERNS.file_location input.data, cleanLine input m = false) ∧
          ∃ m rest, findIter PATTERNS.file_location input.data = m :: rest ∧
            s = sliceS input m.1 m.2)) ∧
    (∀ l1 m l2, findIter PATTERNS.file_location input.data = l1 ++ m :: l2 →
        cleanLine input m = true → (∀ m2 ∈ l1, cleanLine input m2 = false) →
        extract_file_location input = some (sliceS input m.1 m.2)) ∧
    ((∀ m ∈ findIter PATTERNS.file_location input.data, cleanLine input m = false) →
        ∀ m rest, findIter PATTERNS.file_location input.data = m :: rest →
        extract_file_location input = some (sliceS input m.1 m.2)) := by
  have hfwd : ∀ l1 m l2, findIter PATTERNS.file_location input.data = l1 ++ m :: l2 →
      cleanLine input m = true → (∀ m2 ∈ l1, cleanLine input m2 = false) →
      extract_file_location input = some (sliceS input m.1 m.2) := by
    intro l1 m l2 heq hc hall
    exact extract_file_location_of_find input m
      ((find_first_iff _ _ _).mpr ⟨l1, l2, heq, hc, hall⟩)
  have hdfwd : (∀ m ∈ findIter PATTERNS.file_location input.data, cleanLine input m = false) →
      ∀ m rest, findIter PATTERNS.file_location input.data = m :: rest →
      extract_file_location input = some (sliceS input m.1 m.2) := by
    intro hdirty m rest hL
    have hf : (findIter PATTERNS.file_location input.data).find? (cleanLine input) = none :=
      List.find?_eq_none.mpr (fun x hx => by simp [hdirty x hx])
    rw [extract_file_location_of_none input hf, hL]
    rfl
  refine ⟨?_, findIter_nil_iff _ _, findIterAux_sound _ _ _ _,
    fun m rest h => (findIter_head_leftmost _ _ m rest h).2, ?_, hfwd, hdfwd⟩
  · cases hf : (findIter PATTERNS.file_location input.data).find? (cleanLine input) with
    | some m =>
      rw [extract_file_location_of_find input m hf]
      constructor
      · intro h; cases h
      · intro h
        rw [h] at hf
        cases hf
    | none =>
      rw [extract_file_location_of_none input hf]
      simp [Option.map_eq_none', List.head?_eq_none_iff]
  · intro s
    constructor
    · intro hs
      cases hf : (findIter PATTERNS.file_location input.data).find? (cleanLine input) with
      | some m =>
        rw [extract_file_location_of_find input m hf] at hs
        injection hs with hs
        obtain ⟨l1, l2, heq, hc, hall⟩ := (find_first_iff _ _ _).mp hf
        exact Or.inl ⟨l1, m, l2, heq, hc, hall, hs.symm⟩
      | none =>
        rw [extract_file_location_of_none input hf] at hs
        have hdirty : ∀ m ∈ findIter PATTERNS.file_location input.data,
            cleanLine input m = false := by
          intro m hm
          have := List.find?_eq_none.mp hf m hm
          simpa using this
        cases hL : findIter PATTERNS.file_location input.data with
        | nil =>
          rw [hL] at hs
          cases hs
        | cons m rest =>
          rw [hL] at hs hdirty
          simp only [List.head?_cons, Option.map_some'] at hs
          injection hs with hs
          exact Or.inr ⟨hdirty, m, rest, rfl, hs.symm⟩
    · intro hs
      rcases hs with ⟨l1, m, l2, heq, hc, hall, rfl⟩ | ⟨hdirty, m, rest, heq, rfl⟩
      · exact hfwd l1 m l2 heq hc hall
      · exact hdfwd hdirty m rest heq

/-- Witness for C2: nothing on a matchless input; the spec's
vendored-versus-application example extracts the application frame
`Page.tsx:45` past the vendored `Lib.js:82`; and an all-vendored input
falls back to its first match. -/
theorem extract_file_location_spec_witness :
    extract_file_location "no match in this text" = none ∧
    extract_file_location "at L (a/node_modules/Lib.js:82:35)\nat P (a/app/Page.tsx:45:23)"
      = some "Page.tsx:45" ∧
    extract_file_location "at L (a/node_modules/Lib.js:82:35)" = some "Lib.js:82" := by
  refine ⟨(extract_file_location_spec "no match in this text").1.mpr rfl, ?_, ?_⟩
  · rw [(extract_file_location_spec
        "at L (a/node_modules/Lib.js:82:35)\nat P (a/app/Page.tsx:45:23)").2.2.2.2.2.1
      [(21, 30)] (47, 58) [] (by rfl) (by decide) (by decide)]
    rfl
  · rw [(extract_file_location_spec "at L (a/node_modules/Lib.js:82:35)").2.2.2.2.2.2
      (by decide) (21, 30) [] (by rfl)]
    rfl

-- ───────────────────────────────────────────────────────────────────────────
-- C5: plain-render statistics
-- ───────────────────────────────────────────────────────────────────────────

/-- Joining the record block with the blank line, the separator and the
stats line. -/
theorem joinNl_stats_block (lines : List String) (hl : lines ≠ []) (st : String) :
    joinNl (lines ++ ["", "---", st]) = (joinNl lines ++ "\n\n---\n") ++ st := by
  rw [joinNl_append lines ["", "---", st] hl (by simp)]
  apply strEq_of_data
  simp [strApp_data, joinNl]

/-- C5: in the plain rendering the reported original length is the exact
byte length of the input; the reported compressed length is the byte
length of everything rendered above the stats line plus the fixed overhead
constant 34 (equivalently, the byte length of the record block plus 40);
and the reported percentage is `(orig - comp) * 100 / orig` with
truncating division, clamped to 0 when `orig` does not exceed `comp`. -/
theorem format_plain_stats (input : String) (et : ErrorType) :
    (ToonifiedError.new input et).original_len = utf8Len input ∧
    ∃ above comp pct,
      (ToonifiedError.new input et).format_plain
        = above ++ plainStatsLine (utf8Len input) comp pct ∧
      comp = utf8Len above + 34 ∧
      comp = utf8Len (joinNl (recordLines (ToonifiedError.new input et))) + 40 ∧
      pct = (if comp < utf8Len input then (utf8Len input - comp) * 100 / utf8Len input else 0) := by
  constructor
  · rfl
  · have hne : recordLines (ToonifiedError.new input et) ≠ [] := by
      simp [recordLines]
    refine ⟨joinNl (recordLines (ToonifiedError.new input et)) ++ "\n\n---\n",
      utf8Len (joinNl (recordLines (ToonifiedError.new input et))) + 40,
      (if utf8Len (joinNl (recordLines (ToonifiedError.new input et))) + 40 < utf8Len input
        then (utf8Len input - (utf8Len (joinNl (recordLines (ToonifiedError.new input et))) + 40))
          * 100 / utf8Len input
        else 0),
      ?_, ?_, rfl, rfl⟩
    · exact joinNl_stats_block _ hne _
    · rw [utf8Len_append, show utf8Len "\n\n---\n" = 6 from rfl]

/-- Witness for C5 at the spec's TypeError fixture. -/
theorem format_plain_stats_witness :
    (ToonifiedError.new
        "TypeError: Cannot read properties of undefined (reading map)\n    at Array.map"
        ErrorType.TypeError).original_len
      = utf8Len "TypeError: Cannot read properties of undefined (reading map)\n    at Array.map" :=
  (format_plain_stats
    "TypeError: Cannot read properties of undefined (reading map)\n    at Array.map"
    ErrorType.TypeError).1

-- ───────────────────────────────────────────────────────────────────────────
-- C6: issue extraction for the JS runtime categories
-- ───────────────────────────────────────────────────────────────────────────

/-- `find_line_starting_with` satisfies its characterisation. -/
theorem flsw_spec (input : String) (ps : List String) : flswCharacterization input ps := by
  refine ⟨?_, ?_, ?_, ?_⟩
  · cases hf : (rustLines input).find? (startsAnyB ps) with
    | some line =>
      obtain ⟨l1, l2, heq, hs, hall⟩ := (find_first_iff _ _ _).mp hf
      refine Or.inl ⟨l1, line, l2, heq, hs, hall, ?_⟩
      simp only [find_line_starting_with]
      rw [hf]
    | none =>
      refine Or.inr ⟨?_, ?_⟩
      · intro x hx
        have := List.find?_eq_none.mp hf x hx
        simpa using this
      · simp only [find_line_starting_with]
        rw [hf]
  · intro r hr
    exact fallbackScan_some ps (rustLines input) r hr
  · intro line r hr
    obtain ⟨i, p, hp, hfi, hri⟩ := prefixFind_some line ps r hr
    obtain ⟨h1, h2⟩ := findSub_some line.data p.data i hfi
    exact ⟨i, p, hp, hfi, hri, h1, h2⟩
  · constructor
    · intro h
      cases hf : (rustLines input).find? (startsAnyB ps) with
      | some line =>
        have : find_line_starting_with input ps = some line := by
          simp only [find_line_starting_with]
          rw [hf]
        rw [this] at h
        cases h
      | none =>
        have heq : find_line_starting_with input ps = fallbackScan ps (rustLines input) := by
          simp only [find_line_starting_with]
          rw [hf]
        have hfb : fallbackScan ps (rustLines input) = none := by rw [← heq, h]
        intro x hx
        refine ⟨?_, (fallbackScan_none ps (rustLines input)).mp hfb x hx⟩
        have := List.find?_eq_none.mp hf x hx
        simpa using this
    · intro h
      have hf : (rustLines input).find? (startsAnyB ps) = none :=
        List.find?_eq_none.mpr (fun x hx => by simp [(h x hx).1])
      have hfb : fallbackScan ps (rustLines input) = none :=
        (fallbackScan_none ps (rustLines input)).mpr (fun x hx => (h x hx).2)
      simp only [find_line_starting_with]
      rw [hf, hfb]

/-- C6 (amended): for the six JS runtime error categories, issue
extraction is `find_line_starting_with` on that category's literal
prefixes — first line whose (untrimmed) start matches a prefix, else the
first line containing a prefix anywhere cut at the occurrence, else
nothing. -/
theorem extract_issue_js_spec (input : String) (et : ErrorType)
    (h : et ∈ [ErrorType.TypeError, ErrorType.RefError, ErrorType.SyntaxError,
      ErrorType.RangeError, ErrorType.UriError, ErrorType.EvalError]) :
    extract_issue input et = find_line_starting_with input (jsPrefixes et) ∧
    flswCharacterization input (jsPrefixes et) := by
  refine ⟨?_, flsw_spec input (jsPrefixes et)⟩
  simp only [List.mem_cons, List.not_mem_nil, or_false] at h
  rcases h with rfl | rfl | rfl | rfl | rfl | rfl <;> rfl

/-- C6 counterexample: with an earlier line matching a prefix only after
trimming, the claim's trimmed first pass would pick that earlier line, but
the code's untrimmed first pass picks the later line. -/
theorem extract_issue_js_cx :
    extract_issue "  TypeError: a\nTypeError: b" ErrorType.TypeError = some "TypeError: b" ∧
    findLineStartingWithSpecTrim "  TypeError: a\nTypeError: b" (jsPrefixes ErrorType.TypeError)
      = some "  TypeError: a" ∧
    (some "TypeError: b" : Option String) ≠ some "  TypeError: a" := by
  exact ⟨rfl, rfl, by decide⟩

/-- Witness for C6's amended theorem at a concrete input. -/
theorem extract_issue_js_spec_witness :
    extract_issue "TypeError: x" ErrorType.TypeError
      = find_line_starting_with "TypeError: x" (jsPrefixes ErrorType.TypeError) :=
  (extract_issue_js_spec "TypeError: x" ErrorType.TypeError (by decide)).1

-- ───────────────────────────────────────────────────────────────────────────
-- C7 / C10: frame parsing for the Compact rendering
-- ───────────────────────────────────────────────────────────────────────────

/-- C7 (amended): each frame is decomposed by trying the three call-site
shapes in order with the first match winning; when none matches the
TRIMMED frame becomes the function field with an empty location; a
matching location is simplified to the captured trailing
`filename.ext:line` (column dropped), and is left as the trimmed location
string when the location pattern does not match. -/
theorem parse_frame_shapes (frame : String) :
    (∀ fn loc, capt2 PATTERNS.frame_at_name_loc (rustTrim frame) "unknown" "" = some (fn, loc) →
        parse_frame frame = (fn, simplify_location loc)) ∧
    (capt2 PATTERNS.frame_at_name_loc (rustTrim frame) "unknown" "" = none →
      ∀ fn loc, capt2 PATTERNS.frame_at_symbol_loc (rustTrim frame) "unknown" "" = some (fn, loc) →
        parse_frame frame = (fn, simplify_location loc)) ∧
    (capt2 PATTERNS.frame_at_name_loc (rustTrim frame) "unknown" "" = none →
      capt2 PATTERNS.frame_at_symbol_loc (rustTrim frame) "unknown" "" = none →
      ∀ fn loc, capt2 PATTERNS.frame_name_at_loc (rustTrim frame) "unknown" "" = some (fn, loc) →
        parse_frame frame = (fn, simplify_location loc)) ∧
    (capt2 PATTERNS.frame_at_name_loc (rustTrim frame) "unknown" "" = none →
      capt2 PATTERNS.frame_at_symbol_loc (rustTrim frame) "unknown" "" = none →
      capt2 PATTERNS.frame_name_at_loc (rustTrim frame) "unknown" "" = none →
        parse_frame frame = (rustTrim frame, "")) ∧
    (∀ loc fl ln,
        capt2 PATTERNS.location_file_line (rustTrim loc) (rustTrim loc) "" = some (fl, ln) →
        simplify_location loc = fl ++ ":" ++ ln) ∧
    (∀ loc, capt2 PATTERNS.location_file_line (rustTrim loc) (rustTrim loc) "" = none →
        simplify_location loc = rustTrim loc) := by
  refine ⟨?_, ?_, ?_, ?_, ?_, ?_⟩
  · intro fn loc h
    simp only [parse_frame, h]
  · intro h1 fn loc h
    simp only [parse_frame, h1, h]
  · intro h1 h2 fn loc h
    simp only [parse_frame, h1, h2, h]
  · intro h1 h2 h3
    simp only [parse_frame, h1, h2, h3]
  · intro loc fl ln h
    simp only [simplify_location, h]
  · intro loc h
    simp only [simplify_location, h]

/-- C7 counterexample: on a frame matching no call-site shape the code
returns the TRIMMED frame as the function field, not the whole frame
string the claim describes. -/
theorem parse_frame_whole_cx :
    parse_frame "  alpha beta  " = ("alpha beta", "") ∧
    parseFrameSpecWhole "  alpha beta  " = ("  alpha beta  ", "") ∧
    parse_frame "  alpha beta  " ≠ parseFrameSpecWhole "  alpha beta  " := by
  exact ⟨rfl, rfl, by decide⟩

/-- Witness for C7's amended theorem: a first-shape frame with a URL
location, whose column number is dropped. -/
theorem parse_frame_shapes_witness :
    parse_frame "at MyComponent (a/App.tsx:42:10)" = ("MyComponent", "App.tsx:42") := by
  rw [(parse_frame_shapes "at MyComponent (a/App.tsx:42:10)").1 "MyComponent" "a/App.tsx:42:10" rfl]
  rfl

/-- C10: `parse_frame` is total over arbitrary strings; when no call-site
shape matches, the function field is the frame trimmed of surrounding
whitespace (not the verbatim frame) and the location is empty, so an
empty or whitespace-only frame yields two empty fields. -/
theorem parse_frame_fallback_trim (frame : String)
    (h1 : capt2 PATTERNS.frame_at_name_loc (rustTrim frame) "unknown" "" = none)
    (h2 : capt2 PATTERNS.frame_at_symbol_loc (rustTrim frame) "unknown" "" = none)
    (h3 : capt2 PATTERNS.frame_name_at_loc (rustTrim frame) "unknown" "" = none) :
    parse_frame frame = (rustTrim frame, "") ∧
    (rustTrim frame = "" → parse_frame frame = ("", "")) := by
  have main : parse_frame frame = (rustTrim frame, "") := by
    simp only [parse_frame, h1, h2, h3]
  exact ⟨main, fun he => by rw [main, he]⟩

/-- Witness for C10: a no-shape frame falls back to its trimmed text, and
a whitespace-only frame to empty fields. -/
theorem parse_frame_fallback_trim_witness :
    parse_frame "  junk text  " = ("junk text", "") ∧ parse_frame "   " = ("", "") :=
  ⟨(parse_frame_fallback_trim "  junk text  " rfl rfl rfl).1,
   (parse_frame_fallback_trim "   " rfl rfl rfl).2 rfl⟩

-- ───────────────────────────────────────────────────────────────────────────
-- C8: Compact rendering structure
-- ───────────────────────────────────────────────────────────────────────────

/-- A string whose first character is not `'-'` is not the separator. -/
theorem app_ne_dashes (p x : String) (c : Char) (hp : (p.data ++ x.data).head? = some c)
    (hne : c ≠ '-') : p ++ x ≠ "---" := by
  apply ne_dashes_of_head
  rw [strApp_data, hp]
  intro h
  injection h with h
  exact hne h

theorem toonFramesHeader_ne_dashes (n : Nat) : toonFramesHeader n ≠ "---" := by
  apply ne_dashes_of_head
  simp only [toonFramesHeader]
  rw [strApp_data, strApp_data]
  have hh : (("frames[".data ++ (Nat.repr n).data) ++ "]\x7bfn,loc\x7d:".data).head?
      = some 'f' := rfl
  rw [hh]
  intro h
  injection h with h
  exact absurd h (by decide)

theorem toonFrameRow_ne_dashes (fl : String × String) : toonFrameRow fl ≠ "---" := by
  apply ne_dashes_of_head
  simp only [toonFrameRow]
  rw [strApp_data, strApp_data, strApp_data]
  have hh : ((("  ".data ++ fl.1.data) ++ ",".data) ++ fl.2.data).head? = some ' ' := rfl
  rw [hh]
  intro h
  injection h with h
  exact absurd h (by decide)

theorem toonStatsLine_ne_dashes (o c p : Nat) : toonStatsLine o c p ≠ "---" := by
  apply ne_dashes_of_head
  simp only [toonStatsLine]
  rw [strApp_data, strApp_data, strApp_data, strApp_data, strApp_data]
  have hh : ((((("stats\x7borig,comp,pct\x7d: ".data ++ (Nat.repr o).data) ++ ",".data)
      ++ (Nat.repr c).data) ++ ",".data) ++ (Nat.repr p).data).head? = some 's' := rfl
  rw [hh]
  intro h
  injection h with h
  exact absurd h (by decide)

/-- No line of the Compact rendering is the `---` separator. -/
theorem toonAllLines_no_dashes (e : ToonifiedError) : ∀ x ∈ toonAllLines e, x ≠ "---" := by
  intro x hx
  simp only [toonAllLines, List.mem_append, List.mem_singleton] at hx
  rcases hx with hx | hx
  · simp only [toonContentLines, List.mem_append] at hx
    rcases hx with ((hx | hx) | hx) | hx
    · rw [List.mem_singleton] at hx
      subst hx
      exact app_ne_dashes "type: " _ 't' rfl (by decide)
    · revert hx
      cases e.file_location with
      | none => intro hx; exact absurd hx (List.not_mem_nil x)
      | some loc =>
        intro hx
        rw [List.mem_singleton] at hx
        subst hx
        exact app_ne_dashes "file: " _ 'f' rfl (by decide)
    · revert hx
      cases e.issue with
      | none => intro hx; exact absurd hx (List.not_mem_nil x)
      | some iss =>
        intro hx
        rw [List.mem_singleton] at hx
        subst hx
        exact app_ne_dashes "issue: " _ 'i' rfl (by decide)
    · revert hx
      cases e.frames with
      | nil => intro hx; exact absurd hx (List.not_mem_nil x)
      | cons a l =>
        intro hx
        rcases List.mem_cons.mp hx with hx | hx
        · subst hx
          exact toonFramesHeader_ne_dashes _
        · obtain ⟨fl, _, rfl⟩ := List.mem_map.mp hx
          exact toonFrameRow_ne_dashes fl
  · subst hx
    exact toonStatsLine_ne_dashes _ _ _

/-- C8: in the Compact rendering every comma of the issue text is emitted
with a preceding backslash; a non-empty frame list yields a
`frames[N]{fn,loc}:` header with `N` the number of frames followed by
exactly `N` `fn,loc` rows; no `---` separator line is emitted; and the
stats are the single final `stats{orig,comp,pct}:` line. -/
theorem format_toon_spec (e : ToonifiedError) :
    ToonifiedError.format_toon e = joinNl (toonAllLines e) ∧
    (∀ iss, e.issue = some iss →
        ("issue: " ++ escapeCommas iss) ∈ toonAllLines e ∧
        ∀ i, (escapeCommas iss).data.get? i = some ',' →
          0 < i ∧ (escapeCommas iss).data.get? (i - 1) = some '\x5c') ∧
    (e.frames ≠ [] →
        ∃ pre post, toonAllLines e
            = pre ++ (toonFramesHeader e.frames.length
                :: (e.frames.map parse_frame).map toonFrameRow) ++ post ∧
          ((e.frames.map parse_frame).map toonFrameRow).length = e.frames.length) ∧
    "---" ∉ toonAllLines e ∧
    ∃ comp pct, (toonAllLines e).getLast? = some (toonStatsLine e.original_len comp pct) := by
  refine ⟨rfl, ?_, ?_, ?_, ?_⟩
  · intro iss hiss
    refine ⟨?_, fun i hi => escapeCommasL_ok iss.data i hi⟩
    simp [toonAllLines, toonContentLines, hiss]
  · intro hne
    refine ⟨["type: " ++ e.error_type.name]
        ++ (match e.file_location with
            | some loc => ["file: " ++ loc]
            | none => [])
        ++ (match e.issue with
            | some iss => ["issue: " ++ escapeCommas iss]
            | none => []),
      [toonStatsLine e.original_len (utf8Len (joinNl (toonContentLines e)) + 30)
        (if utf8Len (joinNl (toonContentLines e)) + 30 < e.original_len
          then (e.original_len - (utf8Len (joinNl (toonContentLines e)) + 30)) * 100
            / e.original_len
          else 0)], ?_, by simp⟩
    show toonContentLines e ++ [_] = _
    cases hfr : e.frames with
    | nil => exact absurd hfr hne
    | cons a l =>
      simp only [toonContentLines, hfr, List.isEmpty_cons, Bool.false_eq_true, if_false,
        List.length_map, List.append_assoc, List.cons_append, List.nil_append]
  · exact fun hmem => toonAllLines_no_dashes e "---" hmem rfl
  · exact ⟨_, _, by simp only [toonAllLines]; rw [List.getLast?_concat]⟩

/-- Witness for C8 at a concrete record with a comma in the issue and one
frame. -/
theorem format_toon_spec_witness :
    ("issue: " ++ escapeCommas "a,b")
      ∈ toonAllLines ⟨ErrorType.TypeError, none, some "a,b", ["x"], 100⟩ ∧
    "---" ∉ toonAllLines ⟨ErrorType.TypeError, none, some "a,b", ["x"], 100⟩ :=
  ⟨((format_toon_spec ⟨ErrorType.TypeError, none, some "a,b", ["x"], 100⟩).2.1 "a,b" rfl).1,
   (format_toon_spec ⟨ErrorType.TypeError, none, some "a,b", ["x"], 100⟩).2.2.2.1⟩

-- ───────────────────────────────────────────────────────────────────────────
-- Concrete evaluations (ports of the crate's unit tests)
-- ───────────────────────────────────────────────────────────────────────────

theorem detect_example_type_error :
    detect_error_type "TypeError: Cannot read properties of undefined (reading map)"
      = some ErrorType.TypeError := rfl

theorem detect_example_system :
    detect_error_type "Error: connect ECONNREFUSED 127.0.0.1:3000"
      = some ErrorType.SystemError := rfl

theorem detect_example_http :
    detect_error_type "GET https://api.example.com/users 404 (Not Found)"
      = some ErrorType.HttpError := rfl

theorem detect_example_console_syntax :
    detect_error_type "vite-app.js:29 SyntaxError: module does not provide an export"
      = some ErrorType.SyntaxError := rfl

theorem detect_example_prose :
    detect_error_type "plain prose with no markers" = none := rfl

theorem file_location_example_prefers_user_code :
    extract_file_location
        "at L (a/node_modules/Lib.js:82:35)\nat P (a/app/Page.tsx:45:23)"
      = some "Page.tsx:45" := rfl

theorem file_location_example_vendored_fallback :
    extract_file_location "at L (a/node_modules/Lib.js:82:35)" = some "Lib.js:82" := rfl

theorem user_frames_example :
    extract_user_frames
        "at L (node_modules/m/L.js:82:35)\n  at D (s/D.tsx:45:23)\n  at A (s/A.tsx:18:42)"
      = ["at D (s/D.tsx:45:23)", "at A (s/A.tsx:18:42)"] := rfl

theorem issue_example_type_error :
    extract_issue "TypeError: Cannot read properties of undefined (reading map)\n    at Array.map"
        ErrorType.TypeError
      = some "TypeError: Cannot read properties of undefined (reading map)" := rfl

theorem issue_example_dom_nesting :
    extract_issue "Warning: validateDOMNesting(...): <p> cannot appear as a descendant of <p>."
        ErrorType.DomNesting
      = some "<p> cannot appear as a descendant of <p>" := rfl

theorem truncate_example_long :
    truncate "this is a very long string" 10 = "this is..." := rfl

theorem truncate_example_short : truncate "short" 10 = "short" := rfl

theorem parse_frame_example_webpack :
    parse_frame "at render (webpack://my-app/src/Component.tsx:42:10)"
      = ("render", "Component.tsx:42") := rfl

theorem parse_frame_example_name_at :
    parse_frame "MyFunction@/path/to/file.js:100:5" = ("MyFunction", "file.js:100") := rfl

theorem simplify_location_example_extensions :
    simplify_location "/a/b.tsx:1:1" = "b.tsx:1" ∧
    simplify_location "/a/b.js:4:4" = "b.js:4" ∧
    simplify_location "/a/b.svelte:6:6" = "b.svelte:6" ∧
    simplify_location "/path/to/file.js" = "/path/to/file.js" := ⟨rfl, rfl, rfl, rfl⟩

set_option maxRecDepth 8192 in
theorem format_plain_example :
    (ToonifiedError.new
        "TypeError: Cannot read properties of undefined (reading map)\n    at Array.map"
        ErrorType.TypeError).format_plain
      = "type: TYPE_ERROR\nissue: TypeError: Cannot read properties of undefined (reading map)\n\n---\ncompressed: 77c → 124c (0% saved)" := rfl

set_option maxRecDepth 8192 in
theorem format_toon_example :
    (ToonifiedError.new
        "Error: test\n    at FunctionA (file.tsx:10:5)\n    at FunctionB (other.tsx:20:3)"
        ErrorType.RuntimeError).format_toon
      = "type: RUNTIME_ERROR\nfile: file.tsx:10\nissue: Error: test\nframes[2]\x7bfn,loc\x7d:\n  FunctionA,file.tsx:10\n  FunctionB,other.tsx:20\nstats\x7borig,comp,pct\x7d: 78,154,0" := rfl

end Toonify
